import Mathlib

/-!
Verification of the oauth2-server token-handling core against its
natural-language specification.

The JavaScript sources are shallowly embedded:

* JS runtime values, as far as the library inspects them, become the
  inductive `JSVal` with JS truthiness.
* Throwing code becomes `Except ErrVal`; the error-class hierarchy of
  `lib/errors/*` becomes the inductive `ErrVal` together with constructor
  functions mirroring each subclass constructor.
* External npm packages used by the code (`@node-oauth/formats`,
  `basic-auth`, node's `http.STATUS_CODES` and `crypto`) are modelled at
  their documented interfaces; `@node-oauth/formats` charset rules and
  SHA-256 are implemented in full so everything stays executable.
* Asynchronous model calls are embedded as pure functions (the code always
  awaits them before branching, so the async layer is behaviourally inert).
-/

namespace OAuth2S2P

/-- JS runtime values, as far as the token-handling core inspects them.
Arrays only ever hold strings on the paths under study (grants lists and
scope lists), so arrays of strings suffice. `objRef` stands for any other
object (opaque users/clients); `date` is a `Date` instance with its epoch
milliseconds. -/
inductive JSVal where
  | undefined
  | nul
  | jsBool (b : Bool)
  | num (n : Int)
  | str (s : String)
  | date (ms : Int)
  | strArr (elems : List String)
  | objRef (id : Nat)
deriving Repr, DecidableEq

/-- `v instanceof Date`. -/
def JSVal.isDate : JSVal → Bool
  | .date _ => true
  | _ => false

/-- JS truthiness of a `JSVal`: `undefined`, `null`, `false`, `0` and `""`
are falsy; dates, arrays and other objects are always truthy. -/
def JSVal.truthy : JSVal → Bool
  | .undefined => false
  | .nul => false
  | .jsBool b => b
  | .num n => n != 0
  | .str s => !s.isEmpty
  | .date _ => true
  | .strArr _ => true
  | .objRef _ => true

/-- Truthiness of an optional string field (absent, or a string value):
absent and the empty string are falsy. -/
def strTruthy : Option String → Bool
  | some s => !s.isEmpty
  | none => false

/-- JS property lookup on an object modelled as an association list. -/
def getOwn (obj : List (String × α)) (k : String) : Option α :=
  (obj.find? (fun p => p.1 == k)).map (fun p => p.2)

/-- JS property assignment `obj[k] = v`: replace an existing key in place,
otherwise append the new key (insertion order, as JS objects keep it). -/
def setKey : List (String × α) → String → α → List (String × α)
  | [], k, v => [(k, v)]
  | p :: rest, k, v => if p.1 == k then (k, v) :: rest else p :: setKey rest k v

/-- `Object.assign({}, base, ext)`: copy `base`, then assign every entry of
`ext` over it, so `ext` wins on key collisions. -/
def objAssign (base ext : List (String × α)) : List (String × α) :=
  ext.foldl (fun acc p => setKey acc p.1 p.2) base

/-- The error classes of `lib/errors/*` that the token-handling core can
construct or test with `instanceof`. -/
inductive ErrClass where
  | oauthBase
  | invalidArgument
  | invalidClient
  | invalidRequest
  | invalidScope
  | serverErr
  | unauthorizedClient
  | unsupportedGrantType
deriving Repr, DecidableEq

/-- A JS error value: either a plain (non-OAuth) `Error` with a message, or
an `OAuthError` with its class, `name`, possibly-undefined `message`, the
three numeric fields `code`/`status`/`statusCode` the constructor sets, and
the optional `inner` error recorded when wrapping an existing error. -/
inductive ErrVal where
  | plain (message : String)
  | oauth (cls : ErrClass) (name : String) (message : Option String)
      (code status statusCode : Nat) (inner : Option ErrVal)
deriving Repr

/-- `e.message` of a JS error (`none` = the property is `undefined`). -/
def ErrVal.errMessage : ErrVal → Option String
  | .plain m => some m
  | .oauth _ _ m _ _ _ _ => m

/-- `e.name` of a JS error (`"Error"` for a plain error). -/
def ErrVal.errName : ErrVal → String
  | .plain _ => "Error"
  | .oauth _ n _ _ _ _ _ => n

/-- `e.code` of a JS error (`none` = `undefined`, on plain errors). -/
def ErrVal.errCode : ErrVal → Option Nat
  | .plain _ => none
  | .oauth _ _ _ c _ _ _ => c

/-- `e.status` of a JS error. -/
def ErrVal.errStatus : ErrVal → Option Nat
  | .plain _ => none
  | .oauth _ _ _ _ s _ _ => s

/-- `e.statusCode` of a JS error. -/
def ErrVal.errStatusCode : ErrVal → Option Nat
  | .plain _ => none
  | .oauth _ _ _ _ _ s _ => s

/-- `e.inner` of a JS error. -/
def ErrVal.errInner : ErrVal → Option ErrVal
  | .plain _ => none
  | .oauth _ _ _ _ _ _ i => i

/-- `e instanceof InvalidClientError`. -/
def ErrVal.isInvalidClient : ErrVal → Bool
  | .oauth .invalidClient _ _ _ _ _ _ => true
  | _ => false

/-- The `messageOrError` argument of the `OAuthError` constructor: a message
string, an existing `Error`, or `undefined`. -/
inductive MsgOrErr where
  | undefined
  | msg (s : String)
  | err (e : ErrVal)
deriving Repr

/-- The subset of the `properties` constructor argument the library reads:
an optional `code` and an optional `name` (`none` = key absent). -/
structure ErrProps where
  code : Option Nat
  name : Option String
deriving Repr, DecidableEq

/-- Node's `http.STATUS_CODES` table (external to the repository), restricted
to the status codes the error taxonomy can bind. -/
def statusCodes : Nat → Option String
  | 200 => some "OK"
  | 400 => some "Bad Request"
  | 401 => some "Unauthorized"
  | 403 => some "Forbidden"
  | 404 => some "Not Found"
  | 500 => some "Internal Server Error"
  | 503 => some "Service Unavailable"
  | _ => none

/-- The `OAuthError` constructor of `lib/errors/oauth-error.js`, with the
concrete subclass recorded in `cls` (JS dispatches on the prototype chain).
Mirrors the source: extract the message and the wrapped error from
`messageOrError`; default the properties to `{}` and the code to 500; keep
the wrapped error as `inner`; replace a missing or empty message by
`http.STATUS_CODES[code]`; set `code`, `status` and `statusCode` to the same
value and copy `name` (a JS `Error`'s default name is `"Error"`). -/
def OAuthError.constructWith (cls : ErrClass) (messageOrError : MsgOrErr)
    (properties : Option ErrProps) : ErrVal :=
  let msg0 : Option String :=
    match messageOrError with
    | .msg s => some s
    | .err e => e.errMessage
    | .undefined => none
  let inner : Option ErrVal :=
    match messageOrError with
    | .err e => some e
    | _ => none
  let props : ErrProps := properties.getD ⟨none, none⟩
  let code : Nat := props.code.getD 500
  let message : Option String :=
    match msg0 with
    | some s => if s.isEmpty then statusCodes code else some s
    | none => statusCodes code
  .oauth cls (props.name.getD "Error") message code code code inner

/-- `new OAuthError(messageOrError, properties)`. -/
def OAuthError.construct (m : MsgOrErr) (p : Option ErrProps) : ErrVal :=
  OAuthError.constructWith .oauthBase m p

/-- A subclass constructor body: `properties = {code: defCode, name: defName,
...properties}` — caller-supplied keys override the defaults. -/
def subclassProps (defCode : Nat) (defName : String) (p : Option ErrProps) : ErrProps :=
  ⟨some ((p.bind ErrProps.code).getD defCode), some ((p.bind ErrProps.name).getD defName)⟩

/-- `new InvalidClientError(messageOrError, properties)` (default 400,
`invalid_client`). -/
def InvalidClientError.construct (m : MsgOrErr) (p : Option ErrProps) : ErrVal :=
  OAuthError.constructWith .invalidClient m (some (subclassProps 400 "invalid_client" p))

/-- `new InvalidRequestError(messageOrError, properties)` (default 400,
`invalid_request`). -/
def InvalidRequestError.construct (m : MsgOrErr) (p : Option ErrProps) : ErrVal :=
  OAuthError.constructWith .invalidRequest m (some (subclassProps 400 "invalid_request" p))

/-- `new InvalidScopeError(messageOrError, properties)` (default 400,
`invalid_scope`). -/
def InvalidScopeError.construct (m : MsgOrErr) (p : Option ErrProps) : ErrVal :=
  OAuthError.constructWith .invalidScope m (some (subclassProps 400 "invalid_scope" p))

/-- `new InvalidArgumentError(messageOrError, properties)` (default 500,
`invalid_argument`). -/
def InvalidArgumentError.construct (m : MsgOrErr) (p : Option ErrProps) : ErrVal :=
  OAuthError.constructWith .invalidArgument m (some (subclassProps 500 "invalid_argument" p))

/-- `new ServerError(messageOrError, properties)` (default 503,
`server_error`). -/
def ServerError.construct (m : MsgOrErr) (p : Option ErrProps) : ErrVal :=
  OAuthError.constructWith .serverErr m (some (subclassProps 503 "server_error" p))

/-- `new UnauthorizedClientError(messageOrError, properties)` (default 400,
`unauthorized_client`). -/
def UnauthorizedClientError.construct (m : MsgOrErr) (p : Option ErrProps) : ErrVal :=
  OAuthError.constructWith .unauthorizedClient m (some (subclassProps 400 "unauthorized_client" p))

/-- `new UnsupportedGrantTypeError(messageOrError, properties)` (default 400,
`unsupported_grant_type`). -/
def UnsupportedGrantTypeError.construct (m : MsgOrErr) (p : Option ErrProps) : ErrVal :=
  OAuthError.constructWith .unsupportedGrantType m (some (subclassProps 400 "unsupported_grant_type" p))

/-- Shorthand for the ubiquitous `new XxxError('some message')` call shape. -/
def invalidClientError (m : String) : ErrVal := InvalidClientError.construct (.msg m) none

/-- `new InvalidRequestError(message)`. -/
def invalidRequestError (m : String) : ErrVal := InvalidRequestError.construct (.msg m) none

/-- `new InvalidScopeError(message)`. -/
def invalidScopeError (m : String) : ErrVal := InvalidScopeError.construct (.msg m) none

/-- `new ServerError(message)`. -/
def serverError (m : String) : ErrVal := ServerError.construct (.msg m) none

/-- `new UnauthorizedClientError(message)`. -/
def unauthorizedClientError (m : String) : ErrVal := UnauthorizedClientError.construct (.msg m) none

/-- `new UnsupportedGrantTypeError(message)`. -/
def unsupportedGrantTypeError (m : String) : ErrVal := UnsupportedGrantTypeError.construct (.msg m) none

/-- `new InvalidArgumentError(message)`. -/
def invalidArgumentError (m : String) : ErrVal := InvalidArgumentError.construct (.msg m) none

/-- An ASCII letter, `[a-zA-Z]`. -/
def asciiAlpha (c : Char) : Bool :=
  (0x41 ≤ c.toNat && c.toNat ≤ 0x5A) || (0x61 ≤ c.toNat && c.toNat ≤ 0x7A)

/-- An ASCII letter or digit, `[a-zA-Z0-9]`. -/
def asciiAlphanum (c : Char) : Bool :=
  asciiAlpha c || (0x30 ≤ c.toNat && c.toNat ≤ 0x39)

/-- `VSCHAR` of the external `@node-oauth/formats` package: a visible
printable ASCII character, `%x20-7E`. -/
def vscharOk (c : Char) : Bool := 0x20 ≤ c.toNat && c.toNat ≤ 0x7E

/-- `isFormat.vschar(value)`: one or more `VSCHAR`s. -/
def isVschar (s : String) : Bool := !s.data.isEmpty && s.data.all vscharOk

/-- `NCHAR` of `@node-oauth/formats`: `-`, `.`, `_` or `\w` (ASCII letters,
digits and underscore). -/
def ncharOk (c : Char) : Bool := c == '-' || c == '.' || c == '_' || asciiAlphanum c

/-- `isFormat.nchar(value)`: one or more `NCHAR`s. -/
def isNchar (s : String) : Bool := !s.data.isEmpty && s.data.all ncharOk

/-- `NQSCHAR` of `@node-oauth/formats`: `%x20-21 / %x23-5B / %x5D-7E`
(printable ASCII without `"` and `\`). -/
def nqscharOk (c : Char) : Bool :=
  (0x20 ≤ c.toNat && c.toNat ≤ 0x21) ||
  (0x23 ≤ c.toNat && c.toNat ≤ 0x5B) ||
  (0x5D ≤ c.toNat && c.toNat ≤ 0x7E)

/-- `isFormat.nqschar(value)`: one or more `NQSCHAR`s (the empty string does
not match). -/
def isNqschar (s : String) : Bool := !s.data.isEmpty && s.data.all nqscharOk

/-- A character of the URI scheme tail class `[a-zA-Z0-9+.-]`. -/
def uriSchemeTailOk (c : Char) : Bool := asciiAlphanum c || c == '+' || c == '.' || c == '-'

/-- Scan for `[a-zA-Z0-9+.-]+:` — at least one tail character, then a
colon. The class excludes `:`, so no regex backtracking can occur. -/
def uriTailScan : List Char → Nat → Bool
  | [], _ => false
  | c :: rest, seen =>
    if c == ':' then decide (1 ≤ seen)
    else if uriSchemeTailOk c then uriTailScan rest (seen + 1)
    else false

/-- `isFormat.uri(value)`: `URI.test`, the unanchored-at-the-end regex
`[a-zA-Z][a-zA-Z0-9+.-]+:` matched at the start of the string. -/
def uriTest (s : String) : Bool :=
  match s.data with
  | [] => false
  | c :: rest => asciiAlpha c && uriTailScan rest 0

/-- Modelled from the spec: `lib/pkce/pkce.js` is not among the sources.
Per §4.2 of the spec, `isPKCERequest(grantType, codeVerifier)` is true iff
the grant type equals `"authorization_code"` and the code verifier is a
non-empty string. -/
def isPKCERequest (grantType codeVerifier : Option String) : Bool :=
  grantType == some "authorization_code" && strTruthy codeVerifier

/-- A character matched by the JS regex class `\s` (also the set trimmed by
`String.prototype.trim`). -/
def jsWhitespaceOk (c : Char) : Bool :=
  c.toNat == 0x09 || c.toNat == 0x0A || c.toNat == 0x0B || c.toNat == 0x0C ||
  c.toNat == 0x0D || c.toNat == 0x20 || c.toNat == 0xA0 || c.toNat == 0x1680 ||
  (0x2000 ≤ c.toNat && c.toNat ≤ 0x200A) || c.toNat == 0x2028 ||
  c.toNat == 0x2029 || c.toNat == 0x202F || c.toNat == 0x205F ||
  c.toNat == 0x3000 || c.toNat == 0xFEFF

/-- `String.prototype.trim`: strip leading and trailing JS whitespace. -/
def jsTrim (s : String) : String :=
  ⟨((s.data.dropWhile jsWhitespaceOk).reverse.dropWhile jsWhitespaceOk).reverse⟩

mutual

/-- Worker for `String.prototype.split(/\s+/)` while inside a token: `acc`
holds the token's characters in reverse; a whitespace character closes the
token and enters the whitespace-run state. -/
def splitWsGo : List Char → List Char → List (List Char)
  | [], acc => [acc.reverse]
  | c :: rest, acc =>
    if jsWhitespaceOk c then
      acc.reverse :: splitWsSkip rest
    else
      splitWsGo rest (c :: acc)

/-- Worker for `String.prototype.split(/\s+/)` while inside a whitespace
run; a run that reaches the end of the string produces a final empty piece,
exactly as JS `split` does. -/
def splitWsSkip : List Char → List (List Char)
  | [] => [[]]
  | c :: rest =>
    if jsWhitespaceOk c then
      splitWsSkip rest
    else
      splitWsGo rest [c]

end

/-- `value.split(/\s+/)`: split on runs of one-or-more whitespace. -/
def splitWs (s : String) : List String :=
  (splitWsGo s.data []).map (fun cs => ⟨cs⟩)

/-- `parseScope` of `lib/utils/scope-util.js`: `undefined`/`null` input
gives `undefined`; a non-string input raises `InvalidScope`; a string is
trimmed and must match `NQSCHAR`, else `InvalidScope`; a valid string is
split on whitespace runs. -/
def parseScope (requestedScope : JSVal) : Except ErrVal (Option (List String)) :=
  match requestedScope with
  | .undefined => .ok none
  | .nul => .ok none
  | .str s =>
    let trimmed := jsTrim s
    if !isNqschar trimmed then
      .error (invalidScopeError "Invalid parameter: `scope`")
    else
      .ok (some (splitWs trimmed))
  | _ => .error (invalidScopeError "Invalid parameter: `scope`")

/-- Truncate to a 32-bit word. -/
def w32 (x : Nat) : Nat := x % 4294967296

/-- 32-bit rotate right. -/
def rotr (n x : Nat) : Nat := w32 ((x >>> n) ||| (x <<< (32 - n)))

/-- SHA-256 `Ch(x,y,z)` (bitwise not is xor with the 32-bit mask). -/
def shaCh (x y z : Nat) : Nat := (x &&& y) ^^^ ((x ^^^ 4294967295) &&& z)

/-- SHA-256 `Maj(x,y,z)`. -/
def shaMaj (x y z : Nat) : Nat := (x &&& y) ^^^ (x &&& z) ^^^ (y &&& z)

/-- SHA-256 `Σ0`. -/
def bigSigma0 (x : Nat) : Nat := rotr 2 x ^^^ rotr 13 x ^^^ rotr 22 x

/-- SHA-256 `Σ1`. -/
def bigSigma1 (x : Nat) : Nat := rotr 6 x ^^^ rotr 11 x ^^^ rotr 25 x

/-- SHA-256 `σ0`. -/
def smallSigma0 (x : Nat) : Nat := rotr 7 x ^^^ rotr 18 x ^^^ (x >>> 3)

/-- SHA-256 `σ1`. -/
def smallSigma1 (x : Nat) : Nat := rotr 17 x ^^^ rotr 19 x ^^^ (x >>> 10)

/-- The 64 SHA-256 round constants of FIPS 180-4 (the fractional parts of
the cube roots of the first 64 primes), written in decimal. -/
def sha256K : List Nat :=
  [1116352408, 1899447441, 3049323471, 3921009573, 961987163, 1508970993,
   2453635748, 2870763221, 3624381080, 310598401, 607225278, 1426881987,
   1925078388, 2162078206, 2614888103, 3248222580, 3835390401, 4022224774,
   264347078, 604807628, 770255983, 1249150122, 1555081692, 1996064986,
   2554220882, 2821834349, 2952996808, 3210313671, 3336571891, 3584528711,
   113926993, 338241895, 666307205, 773529912, 1294757372, 1396182291,
   1695183700, 1986661051, 2177026350, 2456956037, 2730485921, 2820302411,
   3259730800, 3345764771, 3516065817, 3600352804, 4094571909, 275423344,
   430227734, 506948616, 659060556, 883997877, 958139571, 1322822218,
   1537002063, 1747873779, 1955562222, 2024104815, 2227730452, 2361852424,
   2428436474, 2756734187, 3204031479, 3329325298]

/-- The SHA-256 working state: eight 32-bit words. -/
structure Hash8 where
  a : Nat
  b : Nat
  c : Nat
  d : Nat
  e : Nat
  f : Nat
  g : Nat
  h : Nat
deriving Repr, DecidableEq

/-- The SHA-256 initial hash value of FIPS 180-4, in decimal. -/
def sha256Init : Hash8 :=
  ⟨1779033703, 3144134277, 1013904242, 2773480762,
   1359893119, 2600822924, 528734635, 1541459225⟩

/-- SHA-256 padding: append `0x80`, zero bytes until the length is 56 mod
64, then the bit length as an 8-byte big-endian integer. -/
def sha256Pad (msg : List Nat) : List Nat :=
  let len := msg.length
  let bitLen := 8 * len
  let zeros := (119 - len % 64) % 64
  msg ++ [0x80] ++ List.replicate zeros 0 ++
    [(bitLen >>> 56) % 256, (bitLen >>> 48) % 256, (bitLen >>> 40) % 256,
     (bitLen >>> 32) % 256, (bitLen >>> 24) % 256, (bitLen >>> 16) % 256,
     (bitLen >>> 8) % 256, bitLen % 256]

/-- Split a byte list into 64-byte blocks; the list's own length bounds the
number of blocks, so plain structural recursion on that bound suffices. -/
def chunks64Go : Nat → List Nat → List (List Nat)
  | 0, _ => []
  | _, [] => []
  | Nat.succ fuel, l => l.take 64 :: chunks64Go fuel (l.drop 64)

/-- Split a byte list into 64-byte blocks. -/
def chunks64 (l : List Nat) : List (List Nat) := chunks64Go l.length l

/-- Combine bytes into big-endian 32-bit words. -/
def bytesToWords : List Nat → List Nat
  | a :: b :: c :: d :: rest =>
    ((((a <<< 8) ||| b) <<< 8 ||| c) <<< 8 ||| d) :: bytesToWords rest
  | _ => []

/-- Given the 16-word sliding window `[w(i-16), …, w(i-1)]`, the next word
of the SHA-256 message schedule. -/
def nextScheduleWord (window : List Nat) : Nat :=
  w32 (window.getD 0 0 + smallSigma0 (window.getD 1 0) +
       window.getD 9 0 + smallSigma1 (window.getD 14 0))

/-- Produce `n` message-schedule words starting from the given window. -/
def genWords (window : List Nat) : Nat → List Nat
  | 0 => []
  | Nat.succ m =>
    match window with
    | [] => []
    | w0 :: rest => w0 :: genWords (rest ++ [nextScheduleWord window]) m

/-- One SHA-256 compression round. -/
def shaRound (st : Hash8) (k w : Nat) : Hash8 :=
  let t1 := w32 (st.h + bigSigma1 st.e + shaCh st.e st.f st.g + k + w)
  let t2 := w32 (bigSigma0 st.a + shaMaj st.a st.b st.c)
  ⟨w32 (t1 + t2), st.a, st.b, st.c, w32 (st.d + t1), st.e, st.f, st.g⟩

/-- Process one 64-byte block. -/
def processBlock (st : Hash8) (block : List Nat) : Hash8 :=
  let ws := genWords (bytesToWords block) 64
  let r := (sha256K.zip ws).foldl (fun s p => shaRound s p.1 p.2) st
  ⟨w32 (st.a + r.a), w32 (st.b + r.b), w32 (st.c + r.c), w32 (st.d + r.d),
   w32 (st.e + r.e), w32 (st.f + r.f), w32 (st.g + r.g), w32 (st.h + r.h)⟩

/-- Big-endian bytes of a 32-bit word. -/
def wordBytes (w : Nat) : List Nat :=
  [(w >>> 24) % 256, (w >>> 16) % 256, (w >>> 8) % 256, w % 256]

/-- SHA-256 of a byte list (FIPS 180-4, as computed by node's
`crypto.createHash('sha256')`): the 32-byte digest. -/
def sha256 (msg : List Nat) : List Nat :=
  let fin := (chunks64 (sha256Pad msg)).foldl processBlock sha256Init
  wordBytes fin.a ++ wordBytes fin.b ++ wordBytes fin.c ++ wordBytes fin.d ++
  wordBytes fin.e ++ wordBytes fin.f ++ wordBytes fin.g ++ wordBytes fin.h

/-- A lowercase hexadecimal digit. -/
def hexDigitChar (n : Nat) : Char :=
  if n < 10 then Char.ofNat (48 + n) else Char.ofNat (87 + n)

/-- The two lowercase hex digits of a byte. -/
def byteHex (b : Nat) : List Char := [hexDigitChar (b / 16 % 16), hexDigitChar (b % 16)]

/-- Hex encoding of a byte list, as node's `digest('hex')` produces it. -/
def bytesToHex (bs : List Nat) : String := ⟨(bs.map byteHex).flatten⟩

/-- A lowercase hexadecimal character, `[0-9a-f]`. -/
def hexLowerOk (c : Char) : Bool :=
  (0x30 ≤ c.toNat && c.toNat ≤ 0x39) || (0x61 ≤ c.toNat && c.toNat ≤ 0x66)

/-- `createHash({data, encoding: 'hex'})` of `lib/utils/crypto-util.js` with
the default `sha256` algorithm: hash the data and hex-encode the digest. -/
def createHashHex (data : List Nat) : String := bytesToHex (sha256 data)

/-- `generateRandomToken` of `lib/utils/token-util.js`. The source draws
`buffer = randomBytes(256)` from node's CSPRNG — randomness is externalized
here as the `buffer` argument — and returns
`createHash({data: buffer, encoding: 'hex'})`. -/
def generateRandomToken (buffer : List Nat) : String := createHashHex buffer

/-- Lowercase an ASCII letter. -/
def asciiLowerChar (c : Char) : Char :=
  if 0x41 ≤ c.toNat && c.toNat ≤ 0x5A then Char.ofNat (c.toNat + 32) else c

/-- `field.toLowerCase()` for ASCII header names. -/
def asciiLower (s : String) : String := ⟨s.data.map asciiLowerChar⟩

/-- The credentials produced by the external `basic-auth` package when the
`Authorization` request header parses as HTTP Basic. -/
structure BasicCreds where
  name : String
  pass : String
deriving Repr, DecidableEq

/-- The request-body fields the token handler reads. Form-urlencoded bodies
only carry strings, so each field is an absent-or-string value. -/
structure ReqBody where
  grant_type : Option String
  code_verifier : Option String
  client_id : Option String
  client_secret : Option String
deriving Repr, DecidableEq

/-- A normalized request, as far as the token handler inspects it. The
`Request` value object stores header names lowercased; `basic` is the result
of the external `basic-auth` package's parse of the `Authorization` header
(`none` when the header is absent or does not parse as HTTP Basic). -/
structure Req where
  headers : List (String × String)
  basic : Option BasicCreds
  body : ReqBody
deriving Repr, DecidableEq

/-- `request.get(field)`: case-insensitive header lookup. -/
def Req.get (r : Req) (field : String) : Option String :=
  getOwn r.headers (asciiLower field)

/-- A response body value: the token handler stores JS values under string
keys. -/
abbrev RespBody := List (String × JSVal)

/-- A normalized response: lowercased header names, a body object, and a
status (a `JSVal` because `updateErrorResponse` copies `error.code`, which
is `undefined` on a plain error). -/
structure Resp where
  headers : List (String × String)
  body : RespBody
  status : JSVal
deriving Repr, DecidableEq

/-- `response.set(field, value)`: store under the lowercased header name. -/
def Resp.set (r : Resp) (field value : String) : Resp :=
  ⟨setKey r.headers (asciiLower field) value, r.body, r.status⟩

/-- `response.get(field)`: case-insensitive header lookup. -/
def Resp.get (r : Resp) (field : String) : Option String :=
  getOwn r.headers (asciiLower field)

/-- The `grants` field of a client record returned by the model: absent (or
otherwise falsy), a truthy non-array value, or an array of grant names. -/
inductive GrantsVal where
  | missing
  | nonArray
  | arr (gs : List String)
deriving Repr, DecidableEq

/-- A client record returned by the model, restricted to the fields the
token handler reads. -/
structure Client where
  grants : GrantsVal
  accessTokenLifetime : Option Int
  refreshTokenLifetime : Option Int
deriving Repr, DecidableEq

/-- The model collaborator, restricted to the capabilities the token
handler and the abstract grant type use. `getClient` may return a client, a
falsy value (`none`), or throw (`Except.error`); the generators and
`validateScope` are optional capabilities returning arbitrary JS values. -/
structure ServerModel where
  getClient : String → Option String → Except ErrVal (Option Client)
  generateAccessToken : Option (JSVal → JSVal → JSVal → JSVal)
  generateRefreshToken : Option (JSVal → JSVal → JSVal → JSVal)
  validateScope : Option (JSVal → JSVal → JSVal → JSVal)

/-- The dispatchable grant-type constructors: the four built-ins of
`token-handler.js` plus caller-registered extension constructors. -/
inductive GrantCtor where
  | authorizationCode
  | clientCredentials
  | password
  | refreshToken
  | extensionCtor (id : Nat)
deriving Repr, DecidableEq

/-- The built-in `grantTypes` map of `token-handler.js`. -/
def builtinGrantTypes : List (String × GrantCtor) :=
  [("authorization_code", .authorizationCode),
   ("client_credentials", .clientCredentials),
   ("password", .password),
   ("refresh_token", .refreshToken)]

/-- A constructed `TokenHandler`: the fields its methods read. -/
structure TokenHandlerCfg where
  accessTokenLifetime : Int
  refreshTokenLifetime : Int
  grantTypes : List (String × GrantCtor)
  model : ServerModel
  requireClientAuthentication : List (String × Bool)
  alwaysIssueNewRefreshToken : Bool
  allowExtendedTokenAttributes : Bool

/-- A JS property key: accessing `obj[grantType]` with an `undefined`
grant type coerces the key to the string `"undefined"`. -/
def jsKey : Option String → String
  | some s => s
  | none => "undefined"

/-- `TokenHandler#isClientAuthenticationRequired(grantType)`: with a
non-empty `requireClientAuthentication` configuration, look the grant type
up and default to `true` when the key is absent; with an empty
configuration, always `true`. -/
def TokenHandler.isClientAuthenticationRequired (self : TokenHandlerCfg)
    (grantType : Option String) : Bool :=
  if self.requireClientAuthentication.length > 0 then
    match getOwn self.requireClientAuthentication (jsKey grantType) with
    | some b => b
    | none => true
  else
    true

/-- The `{clientId, clientSecret}` pair `getClientCredentials` resolves. -/
structure Credentials where
  clientId : String
  clientSecret : Option String
deriving Repr, DecidableEq

/-- `TokenHandler#getClientCredentials(request)`: prefer the parsed HTTP
Basic credentials; otherwise body `client_id`+`client_secret` when both are
truthy; otherwise a bare truthy body `client_id` when the request is a PKCE
request, or when client authentication is not required for the grant type;
otherwise throw `InvalidClient`. -/
def TokenHandler.getClientCredentials (self : TokenHandlerCfg) (request : Req) :
    Except ErrVal Credentials :=
  let grantType := request.body.grant_type
  let codeVerifier := request.body.code_verifier
  match request.basic with
  | some credentials => .ok ⟨credentials.name, some credentials.pass⟩
  | none =>
    if strTruthy request.body.client_id && strTruthy request.body.client_secret then
      .ok ⟨request.body.client_id.getD "", request.body.client_secret⟩
    else if isPKCERequest grantType codeVerifier && strTruthy request.body.client_id then
      .ok ⟨request.body.client_id.getD "", none⟩
    else if !TokenHandler.isClientAuthenticationRequired self grantType &&
        strTruthy request.body.client_id then
      .ok ⟨request.body.client_id.getD "", none⟩
    else
      .error (invalidClientError "Invalid client: cannot retrieve client credentials")

/-- `TokenHandler#getClient(request, response)`: resolve and format-check
the credentials, call the model, and demand a truthy client with an array
`grants`; errors raised inside the `try` block are re-raised with HTTP code
401 plus a `WWW-Authenticate` response header when they are
`InvalidClientError`s and the request carried an `Authorization` header.
Returns the outcome together with the (possibly updated) response. -/
def TokenHandler.getClient (self : TokenHandlerCfg) (request : Req) (response : Resp) :
    Except ErrVal Client × Resp :=
  match TokenHandler.getClientCredentials self request with
  | .error e => (.error e, response)
  | .ok credentials =>
    let grantType := request.body.grant_type
    let codeVerifier := request.body.code_verifier
    let isPkce := isPKCERequest grantType codeVerifier
    if credentials.clientId.isEmpty then
      (.error (invalidRequestError "Missing parameter: `client_id`"), response)
    else if TokenHandler.isClientAuthenticationRequired self grantType &&
        !strTruthy credentials.clientSecret && !isPkce then
      (.error (invalidRequestError "Missing parameter: `client_secret`"), response)
    else if !isVschar credentials.clientId then
      (.error (invalidRequestError "Invalid parameter: `client_id`"), response)
    else if strTruthy credentials.clientSecret &&
        !isVschar (credentials.clientSecret.getD "") then
      (.error (invalidRequestError "Invalid parameter: `client_secret`"), response)
    else
      let attempt : Except ErrVal Client :=
        match self.model.getClient credentials.clientId credentials.clientSecret with
        | .error e => .error e
        | .ok none => .error (invalidClientError "Invalid client: client is invalid")
        | .ok (some client) =>
          match client.grants with
          | .missing => .error (serverError "Server error: missing client `grants`")
          | .nonArray => .error (serverError "Server error: `grants` must be an array")
          | .arr _ => .ok client
      match attempt with
      | .ok client => (.ok client, response)
      | .error e =>
        if e.isInvalidClient && strTruthy (request.get "authorization") then
          (.error (InvalidClientError.construct (.err e) (some ⟨some 401, none⟩)),
           response.set "WWW-Authenticate" "Basic realm=\"Service\"")
        else
          (.error e, response)

/-- JS truthiness of an optional numeric field: absent or zero is falsy. -/
def jsIntTruthy (v : Option Int) : Bool :=
  match v with
  | some n => n != 0
  | none => false

/-- JS `a || b` on an optional numeric field with a numeric default: a
falsy (absent or zero) left operand yields the default. -/
def jsOrInt (v : Option Int) (d : Int) : Int :=
  match v with
  | some n => if n != 0 then n else d
  | none => d

/-- `TokenHandler#getAccessTokenLifetime(client)`. -/
def TokenHandler.getAccessTokenLifetime (self : TokenHandlerCfg) (client : Client) : Int :=
  jsOrInt client.accessTokenLifetime self.accessTokenLifetime

/-- `TokenHandler#getRefreshTokenLifetime(client)`. -/
def TokenHandler.getRefreshTokenLifetime (self : TokenHandlerCfg) (client : Client) : Int :=
  jsOrInt client.refreshTokenLifetime self.refreshTokenLifetime

/-- The successful outcome of `handleGrantType`: the grant-type class about
to be instantiated, with the lifetimes passed in its options (the grant
type's own `handle` is a separate state machine, out of this claim set). -/
structure Dispatch where
  ctor : GrantCtor
  accessTokenLifetime : Int
  refreshTokenLifetime : Int
deriving Repr, DecidableEq

/-- `TokenHandler#handleGrantType(request, client)` up to the dispatch into
the grant-type class: validate the `grant_type` parameter (present, then
`NCHAR`-or-URI shaped, then configured, then authorized for the client) and
resolve the constructor plus per-client lifetimes. -/
def TokenHandler.handleGrantType (self : TokenHandlerCfg) (request : Req)
    (client : Client) : Except ErrVal Dispatch :=
  let grantType := request.body.grant_type
  if !strTruthy grantType then
    .error (invalidRequestError "Missing parameter: `grant_type`")
  else
    let gt := grantType.getD ""
    if !isNchar gt && !uriTest gt then
      .error (invalidRequestError "Invalid parameter: `grant_type`")
    else
      match getOwn self.grantTypes gt with
      | none => .error (unsupportedGrantTypeError "Unsupported grant type: `grant_type` is invalid")
      | some ctor =>
        let authorized :=
          match client.grants with
          | .arr gs => gs.contains gt
          | _ => false
        if !authorized then
          .error (unauthorizedClientError "Unauthorized client: `grant_type` is invalid")
        else
          .ok ⟨ctor, TokenHandler.getAccessTokenLifetime self client,
               TokenHandler.getRefreshTokenLifetime self client⟩

/-- The options object accepted by the `TokenHandler` constructor. -/
structure TokenHandlerOptions where
  accessTokenLifetime : Option Int
  refreshTokenLifetime : Option Int
  model : Option ServerModel
  modelHasGetClient : Bool
  extendedGrantTypes : List (String × GrantCtor)
  requireClientAuthentication : List (String × Bool)
  alwaysIssueNewRefreshToken : Option Bool
  allowExtendedTokenAttributes : Bool

/-- The `TokenHandler` constructor: demand `accessTokenLifetime`, `model`,
`refreshTokenLifetime` and `model.getClient`, then build the handler state;
the grant-type registry is `Object.assign({}, grantTypes,
options.extendedGrantTypes)` and `alwaysIssueNewRefreshToken` defaults to
`true` (only an explicit `false` disables it). -/
def TokenHandler.create (options : TokenHandlerOptions) : Except ErrVal TokenHandlerCfg :=
  if !jsIntTruthy options.accessTokenLifetime then
    .error (invalidArgumentError "Missing parameter: `accessTokenLifetime`")
  else
    match options.model with
    | none => .error (invalidArgumentError "Missing parameter: `model`")
    | some model =>
      if !jsIntTruthy options.refreshTokenLifetime then
        .error (invalidArgumentError "Missing parameter: `refreshTokenLifetime`")
      else if !options.modelHasGetClient then
        .error (invalidArgumentError "Invalid argument: model does not implement `getClient()`")
      else
        .ok ⟨options.accessTokenLifetime.getD 0,
             options.refreshTokenLifetime.getD 0,
             objAssign builtinGrantTypes options.extendedGrantTypes,
             model,
             options.requireClientAuthentication,
             options.alwaysIssueNewRefreshToken != some false,
             options.allowExtendedTokenAttributes⟩

/-- The reserved key set `modelAttributes` of `lib/models/token-model.js`. -/
def modelAttributes : List String :=
  ["accessToken", "accessTokenExpiresAt", "refreshToken",
   "refreshTokenExpiresAt", "scope", "client", "user"]

/-- `getLifetimeFromExpiresAt` of `lib/utils/date-util.js`:
`Math.floor((expiresAt - new Date()) / 1000)` (both in epoch ms). -/
def getLifetimeFromExpiresAt (nowMs expiresAtMs : Int) : Int :=
  Int.fdiv (expiresAtMs - nowMs) 1000

/-- A field of the `data` object handed to the `TokenModel` constructor:
absent keys read as `undefined`. -/
def dataGet (data : List (String × JSVal)) (k : String) : JSVal :=
  (getOwn data k).getD .undefined

/-- A constructed `TokenModel`. -/
structure TokenModelRec where
  accessToken : JSVal
  accessTokenExpiresAt : JSVal
  client : JSVal
  refreshToken : JSVal
  refreshTokenExpiresAt : JSVal
  scope : JSVal
  user : JSVal
  accessTokenLifetime : Option Int
  customAttributes : Option (List (String × JSVal))
deriving Repr, DecidableEq

/-- The `TokenModel` constructor of `lib/models/token-model.js`: demand a
truthy `accessToken`, `client` and `user`; a truthy `accessTokenExpiresAt`
or `refreshTokenExpiresAt` must be a `Date`; compute `accessTokenLifetime`
from a truthy expiry; collect non-reserved keys as `customAttributes` only
when `allowExtendedTokenAttributes` is set. -/
def TokenModel.construct (data : List (String × JSVal))
    (allowExtendedTokenAttributes : Bool) (nowMs : Int) :
    Except ErrVal TokenModelRec :=
  let accessToken := dataGet data "accessToken"
  let accessTokenExpiresAt := dataGet data "accessTokenExpiresAt"
  let refreshToken := dataGet data "refreshToken"
  let refreshTokenExpiresAt := dataGet data "refreshTokenExpiresAt"
  let scope := dataGet data "scope"
  let client := dataGet data "client"
  let user := dataGet data "user"
  if !accessToken.truthy then
    .error (invalidArgumentError "Missing parameter: `accessToken`")
  else if !client.truthy then
    .error (invalidArgumentError "Missing parameter: `client`")
  else if !user.truthy then
    .error (invalidArgumentError "Missing parameter: `user`")
  else if accessTokenExpiresAt.truthy && !accessTokenExpiresAt.isDate then
    .error (invalidArgumentError "Invalid parameter: `accessTokenExpiresAt`")
  else if refreshTokenExpiresAt.truthy && !refreshTokenExpiresAt.isDate then
    .error (invalidArgumentError "Invalid parameter: `refreshTokenExpiresAt`")
  else
    let lifetime : Option Int :=
      match accessTokenExpiresAt with
      | .date ms => some (getLifetimeFromExpiresAt nowMs ms)
      | _ => none
    let customAttributes : Option (List (String × JSVal)) :=
      if allowExtendedTokenAttributes then
        some (data.filter (fun p => !modelAttributes.contains p.1))
      else
        none
    .ok ⟨accessToken, accessTokenExpiresAt, client, refreshToken,
         refreshTokenExpiresAt, scope, user, lifetime, customAttributes⟩

/-- The `BearerTokenType` state built by `TokenHandler#getTokenType` from a
`TokenModel`. -/
structure BearerTokenType where
  accessToken : JSVal
  accessTokenLifetime : JSVal
  refreshToken : JSVal
  scope : JSVal
  customAttributes : Option (List (String × JSVal))
deriving Repr, DecidableEq

/-- Modelled from the spec: `lib/token-types/bearer-token-type.js` is not
among the sources. Per §4.4 and §8 of the spec and the handler's tests, the
body starts as `{access_token, token_type: 'Bearer'}`, adds `expires_in`,
`refresh_token` and `scope` when truthy, and appends the custom attributes
only when extended-attribute support was enabled (the `TokenModel` only
carries them then). -/
def BearerTokenType.valueOf (t : BearerTokenType) : RespBody :=
  let object : RespBody := [("access_token", t.accessToken), ("token_type", .str "Bearer")]
  let object := if t.accessTokenLifetime.truthy then setKey object "expires_in" t.accessTokenLifetime else object
  let object := if t.refreshToken.truthy then setKey object "refresh_token" t.refreshToken else object
  let object := if t.scope.truthy then setKey object "scope" t.scope else object
  match t.customAttributes with
  | some attrs => attrs.foldl (fun acc p => setKey acc p.1 p.2) object
  | none => object

/-- `TokenHandler#getTokenType(model)`. -/
def TokenHandler.getTokenType (model : TokenModelRec) : BearerTokenType :=
  ⟨model.accessToken,
   (match model.accessTokenLifetime with | some n => .num n | none => .undefined),
   model.refreshToken, model.scope, model.customAttributes⟩

/-- `scope.join(' ')`: only arrays have `join`; calling it on any other
truthy value raises a `TypeError`. -/
def scopeJoin : JSVal → Except ErrVal JSVal
  | .strArr xs => .ok (.str (String.intercalate " " xs))
  | _ => .error (.plain "TypeError: response.body.scope.join is not a function")

/-- `TokenHandler#updateSuccessResponse(response, tokenType)`: set the body
to `tokenType.valueOf()`, rebuild a truthy `scope` as a space-joined string
for RFC 6749 §5.1 compliance, and set the `Cache-Control: no-store` and
`Pragma: no-cache` headers. -/
def TokenHandler.updateSuccessResponse (response : Resp) (tokenType : BearerTokenType) :
    Except ErrVal Resp :=
  let body := tokenType.valueOf
  let joined : Except ErrVal RespBody :=
    match getOwn body "scope" with
    | some v =>
      if v.truthy then
        match scopeJoin v with
        | .ok j => .ok (setKey body "scope" j)
        | .error e => .error e
      else
        .ok body
    | none => .ok body
  match joined with
  | .error e => .error e
  | .ok body =>
    .ok (Resp.set (Resp.set ⟨response.headers, body, response.status⟩
          "Cache-Control" "no-store") "Pragma" "no-cache")

/-- `error.name` as the response-body `error` value. -/
def errNameVal (e : ErrVal) : JSVal := .str e.errName

/-- `error.message` as the response-body `error_description` value. -/
def errMessageVal (e : ErrVal) : JSVal :=
  match e.errMessage with
  | some m => .str m
  | none => .undefined

/-- `error.code` as the response `status` value. -/
def errCodeVal (e : ErrVal) : JSVal :=
  match e.errCode with
  | some c => .num c
  | none => .undefined

/-- `TokenHandler#updateErrorResponse(response, error)`: body `{error:
error.name, error_description: error.message}`, status `error.code`. -/
def TokenHandler.updateErrorResponse (response : Resp) (error : ErrVal) : Resp :=
  ⟨response.headers,
   [("error", errNameVal error), ("error_description", errMessageVal error)],
   errCodeVal error⟩

/-- `AbstractGrantType#generateAccessToken(client, user, scope)`: use the
model's generator when the model provides one — deliberately without a
fallback on a falsy result — else a random token (`buffer` externalizes the
256 random bytes node draws). -/
def AbstractGrantType.generateAccessToken (model : ServerModel)
    (client user scope : JSVal) (buffer : List Nat) : JSVal :=
  match model.generateAccessToken with
  | some gen => gen client user scope
  | none => .str (generateRandomToken buffer)

/-- `AbstractGrantType#generateRefreshToken(client, user, scope)`: same
delegation discipline as the access-token generator. -/
def AbstractGrantType.generateRefreshToken (model : ServerModel)
    (client user scope : JSVal) (buffer : List Nat) : JSVal :=
  match model.generateRefreshToken with
  | some gen => gen client user scope
  | none => .str (generateRandomToken buffer)

/-- `AbstractGrantType#validateScope(user, client, scope)`: when the model
implements `validateScope`, a falsy result raises `InvalidScope` and a
truthy result is returned; without the capability the requested scope
passes through unchanged. -/
def AbstractGrantType.validateScope (model : ServerModel)
    (user client scope : JSVal) : Except ErrVal JSVal :=
  match model.validateScope with
  | some f =>
    let validatedScope := f user client scope
    if !validatedScope.truthy then
      .error (invalidScopeError "Invalid scope: Requested scope is invalid")
    else
      .ok validatedScope
  | none => .ok scope

/-! ## Helper lemmas -/

theorem getOwn_cons (p : String × α) (rest : List (String × α)) (k : String) :
    getOwn (p :: rest) k = if p.1 = k then some p.2 else getOwn rest k := by
  by_cases h : p.1 = k <;> simp [getOwn, List.find?_cons, h]

theorem getOwn_setKey (l : List (String × α)) (k1 k : String) (v : α) :
    getOwn (setKey l k1 v) k = if k = k1 then some v else getOwn l k := by
  induction l with
  | nil =>
    rw [show setKey ([] : List (String × α)) k1 v = [(k1, v)] from rfl, getOwn_cons]
    by_cases h : k = k1
    · simp [h]
    · simp [getOwn, h, Ne.symm h]
  | cons p rest ih =>
    by_cases hp : p.1 = k1
    · rw [show setKey (p :: rest) k1 v = (k1, v) :: rest from by simp [setKey, hp],
         getOwn_cons, getOwn_cons]
      by_cases h : k = k1
      · simp [h]
      · simp [h, Ne.symm h, hp]
    · rw [show setKey (p :: rest) k1 v = p :: setKey rest k1 v from by simp [setKey, hp],
         getOwn_cons, getOwn_cons, ih]
      by_cases hpk : p.1 = k
      · have hkk : ¬(k = k1) := fun hh => hp (hpk.trans hh)
        simp [hpk, hkk]
      · simp [hpk]

theorem getOwn_eq_none_of_not_mem (l : List (String × α)) (k : String)
    (h : k ∉ l.map Prod.fst) : getOwn l k = none := by
  induction l with
  | nil => rfl
  | cons p rest ih =>
    simp only [List.map_cons, List.mem_cons, not_or] at h
    rw [getOwn_cons]
    simp [Ne.symm h.1, ih h.2]

theorem getOwn_objAssign (ext : List (String × α)) :
    ∀ (base : List (String × α)) (k : String), (ext.map Prod.fst).Nodup →
    getOwn (objAssign base ext) k = (getOwn ext k).or (getOwn base k) := by
  induction ext with
  | nil => intro base k _; simp [objAssign, getOwn, Option.or]
  | cons p rest ih =>
    intro base k hnd
    simp only [List.map_cons, List.nodup_cons] at hnd
    have step : objAssign base (p :: rest) = objAssign (setKey base p.1 p.2) rest := rfl
    rw [step, ih (setKey base p.1 p.2) k hnd.2, getOwn_cons]
    by_cases hk : p.1 = k
    · have hnone : getOwn rest k = none :=
        getOwn_eq_none_of_not_mem rest k (hk ▸ hnd.1)
      simp [hnone, hk, getOwn_setKey]
    · cases hrest : getOwn rest k with
      | some v => simp [hk, hrest]
      | none => simp [hk, hrest, getOwn_setKey, Ne.symm hk]

theorem sha256_length (msg : List Nat) : (sha256 msg).length = 32 := by
  simp [sha256, wordBytes]

set_option maxRecDepth 100000 in
/-- FIPS 180-4 test vector: the SHA-256 digest of the empty message. -/
theorem sha256_vector_empty :
    bytesToHex (sha256 []) =
      "e3b0c44298fc1c149afbf4c8996fb92427ae41e4649b934ca495991b7852b855" := by
  decide

set_option maxRecDepth 100000 in
/-- FIPS 180-4 test vector: the SHA-256 digest of `"abc"`. -/
theorem sha256_vector_abc :
    bytesToHex (sha256 [97, 98, 99]) =
      "ba7816bf8f01cfea414140de5dae2223b00361a396177a9cb410ff61f20015ad" := by
  decide

theorem byteHex_length (b : Nat) : (byteHex b).length = 2 := rfl

theorem bytesToHex_length (bs : List Nat) : (bytesToHex bs).length = 2 * bs.length := by
  induction bs with
  | nil => rfl
  | cons b rest ih =>
    show ((byteHex b ++ ((rest.map byteHex).flatten) : List Char)).length = _
    have : (bytesToHex rest).length = ((rest.map byteHex).flatten).length := rfl
    rw [List.length_append, byteHex_length]
    rw [this] at ih
    simp [ih]
    ring

theorem hexDigitChar_ok (n : Nat) (h : n < 16) : hexLowerOk (hexDigitChar n) = true := by
  interval_cases n <;> decide

theorem byteHex_ok (b : Nat) : ∀ c ∈ byteHex b, hexLowerOk c = true := by
  intro c hc
  simp only [byteHex, List.mem_cons, List.not_mem_nil, or_false] at hc
  rcases hc with h | h <;> subst h
  · exact hexDigitChar_ok _ (Nat.mod_lt _ (by norm_num))
  · exact hexDigitChar_ok _ (Nat.mod_lt _ (by norm_num))

theorem bytesToHex_hex (bs : List Nat) : (bytesToHex bs).data.all hexLowerOk = true := by
  simp only [bytesToHex, List.all_eq_true]
  intro c hc
  simp only [List.mem_flatten, List.mem_map] at hc
  obtain ⟨l, ⟨b, _, rfl⟩, hcl⟩ := hc
  exact byteHex_ok b c hcl

/-! ## C6: parseScope -/

theorem jsTrim_all_ws (s : String) (h : s.data.all jsWhitespaceOk = true) :
    jsTrim s = "" := by
  have : s.data.dropWhile jsWhitespaceOk = [] :=
    List.dropWhile_eq_nil_iff.mpr (by simpa [List.all_eq_true] using h)
  simp [jsTrim, this]

/-- C6: `parseScope` returns `undefined` on `undefined`/`null` input, raises
`InvalidScope` on every non-string input, raises `InvalidScope` on every
string whose trimmed value fails the `nqschar` production — in particular on
the empty and the whitespace-only string — and on every valid string returns
the trimmed string split on one-or-more-whitespace runs, e.g.
`parseScope "a  b" = ["a", "b"]`. -/
theorem c6_parseScope_spec :
    parseScope .undefined = .ok none ∧
    parseScope .nul = .ok none ∧
    (∀ v : JSVal, (∀ s, v ≠ .str s) → v ≠ .undefined → v ≠ .nul →
      parseScope v = .error (invalidScopeError "Invalid parameter: `scope`")) ∧
    (∀ s : String, isNqschar (jsTrim s) = false →
      parseScope (.str s) = .error (invalidScopeError "Invalid parameter: `scope`")) ∧
    (∀ s : String, s.data.all jsWhitespaceOk = true →
      parseScope (.str s) = .error (invalidScopeError "Invalid parameter: `scope`")) ∧
    (∀ s : String, isNqschar (jsTrim s) = true →
      parseScope (.str s) = .ok (some (splitWs (jsTrim s)))) ∧
    parseScope (.str "a  b") = .ok (some ["a", "b"]) ∧
    parseScope (.str "   ") = .error (invalidScopeError "Invalid parameter: `scope`") ∧
    parseScope (.num 123) = .error (invalidScopeError "Invalid parameter: `scope`") := by
  refine ⟨rfl, rfl, ?_, ?_, ?_, ?_, rfl, rfl, rfl⟩
  · intro v hs h1 h2
    cases v with
    | str s => exact absurd rfl (hs s)
    | undefined => exact absurd rfl h1
    | nul => exact absurd rfl h2
    | _ => rfl
  · intro s h
    simp [parseScope, h]
  · intro s h
    have ht := jsTrim_all_ws s h
    simp [parseScope, ht]
    rfl
  · intro s h
    simp [parseScope, h]

/-- Witness for C6 on concrete inputs: a boolean input and a tab-only
string raise `InvalidScope`; a padded scope string parses to its tokens. -/
theorem c6_parseScope_spec_witness :
    parseScope (.jsBool true) = .error (invalidScopeError "Invalid parameter: `scope`") ∧
    parseScope (.str "\t") = .error (invalidScopeError "Invalid parameter: `scope`") ∧
    parseScope (.str " a  b ") = .ok (some ["a", "b"]) := by
  refine ⟨c6_parseScope_spec.2.2.1 _ (fun s => by simp) (by simp) (by simp),
          c6_parseScope_spec.2.2.2.1 "\t" rfl,
          (c6_parseScope_spec.2.2.2.2.2.1 " a  b " rfl).trans rfl⟩

/-! ## C5: AbstractGrantType.validateScope -/

/-- C5: when the model implements `validateScope`, a truthy result is
returned as-is and a falsy result raises `InvalidScope` with message
"Invalid scope: Requested scope is invalid"; without the capability the
requested scope passes through unchanged — so a returned scope is always
either the requested scope or the model's validation result. -/
theorem c5_validateScope_spec :
    ∀ (model : ServerModel) (user client scope : JSVal),
      (∀ f, model.validateScope = some f →
        ((f user client scope).truthy = true →
          AbstractGrantType.validateScope model user client scope = .ok (f user client scope)) ∧
        ((f user client scope).truthy = false →
          AbstractGrantType.validateScope model user client scope =
            .error (invalidScopeError "Invalid scope: Requested scope is invalid"))) ∧
      (model.validateScope = none →
        AbstractGrantType.validateScope model user client scope = .ok scope) ∧
      (∀ result, AbstractGrantType.validateScope model user client scope = .ok result →
        result = scope ∨ ∃ f, model.validateScope = some f ∧ result = f user client scope) := by
  intro model user client scope
  refine ⟨fun f hf => ⟨fun ht => ?_, fun hf2 => ?_⟩, fun hn => ?_, fun result hr => ?_⟩
  · simp [AbstractGrantType.validateScope, hf, ht]
  · simp [AbstractGrantType.validateScope, hf, hf2]
  · simp [AbstractGrantType.validateScope, hn]
  · cases hms : model.validateScope with
    | none =>
      left
      simp [AbstractGrantType.validateScope, hms] at hr
      exact hr.symm
    | some f =>
      right
      refine ⟨f, rfl, ?_⟩
      by_cases ht : (f user client scope).truthy = true
      · simp [AbstractGrantType.validateScope, hms, ht] at hr
        exact hr.symm
      · simp [AbstractGrantType.validateScope, hms,
              Bool.eq_false_iff.mpr ht] at hr

/-- Witness for C5: a model whose validator echoes a truthy scope, a model
whose validator returns `false`, and a model without a validator. -/
theorem c5_validateScope_spec_witness :
    AbstractGrantType.validateScope
      ⟨fun _ _ => .ok none, none, none, some (fun _ _ s => s)⟩
      (.objRef 0) (.objRef 1) (.strArr ["read"]) = .ok (.strArr ["read"]) ∧
    AbstractGrantType.validateScope
      ⟨fun _ _ => .ok none, none, none, some (fun _ _ _ => .jsBool false)⟩
      (.objRef 0) (.objRef 1) (.strArr ["read"]) =
      .error (invalidScopeError "Invalid scope: Requested scope is invalid") ∧
    AbstractGrantType.validateScope
      ⟨fun _ _ => .ok none, none, none, none⟩
      (.objRef 0) (.objRef 1) (.strArr ["read"]) = .ok (.strArr ["read"]) := by
  refine ⟨((c5_validateScope_spec _ _ _ _).1 (fun _ _ s => s) rfl).1 rfl,
          ((c5_validateScope_spec _ _ _ _).1 (fun _ _ _ => .jsBool false) rfl).2 rfl,
          (c5_validateScope_spec _ _ _ _).2.1 rfl⟩

/-! ## C4: token generation delegation -/

/-- C4: `generateAccessToken`/`generateRefreshToken` return exactly the
model generator's result whenever the model defines one (never falling back,
even on a falsy result), and only without a model generator return the
fallback: the SHA-256 hash of the 256 random bytes, hex-encoded, which is a
64-character lowercase-hex string. -/
theorem c4_generateToken_delegation :
    ∀ (model : ServerModel) (client user scope : JSVal) (buffer : List Nat),
      (∀ gen, model.generateAccessToken = some gen →
        AbstractGrantType.generateAccessToken model client user scope buffer =
          gen client user scope) ∧
      (∀ gen, model.generateRefreshToken = some gen →
        AbstractGrantType.generateRefreshToken model client user scope buffer =
          gen client user scope) ∧
      (model.generateAccessToken = none → buffer.length = 256 →
        AbstractGrantType.generateAccessToken model client user scope buffer =
          .str (bytesToHex (sha256 buffer)) ∧
        (generateRandomToken buffer).length = 64 ∧
        (generateRandomToken buffer).data.all hexLowerOk = true) ∧
      (model.generateRefreshToken = none → buffer.length = 256 →
        AbstractGrantType.generateRefreshToken model client user scope buffer =
          .str (bytesToHex (sha256 buffer)) ∧
        (generateRandomToken buffer).length = 64 ∧
        (generateRandomToken buffer).data.all hexLowerOk = true) := by
  intro model client user scope buffer
  have hlen : (generateRandomToken buffer).length = 64 := by
    show (bytesToHex (sha256 buffer)).length = 64
    rw [bytesToHex_length, sha256_length]
  have hhex : (generateRandomToken buffer).data.all hexLowerOk = true :=
    bytesToHex_hex (sha256 buffer)
  refine ⟨fun gen hg => ?_, fun gen hg => ?_, fun hn _ => ⟨?_, hlen, hhex⟩,
          fun hn _ => ⟨?_, hlen, hhex⟩⟩
  · simp [AbstractGrantType.generateAccessToken, hg]
  · simp [AbstractGrantType.generateRefreshToken, hg]
  · simp [AbstractGrantType.generateAccessToken, hn]; rfl
  · simp [AbstractGrantType.generateRefreshToken, hn]; rfl

/-- Witness for C4: a model generator returning the falsy empty string is
still returned verbatim (no fallback), and without generators the fallback
on 256 zero bytes is used in both helpers. -/
theorem c4_generateToken_delegation_witness :
    AbstractGrantType.generateAccessToken
      ⟨fun _ _ => .ok none, some (fun _ _ _ => .str ""), none, none⟩
      (.objRef 0) (.objRef 1) .undefined (List.replicate 256 0) = .str "" ∧
    AbstractGrantType.generateRefreshToken
      ⟨fun _ _ => .ok none, none, some (fun _ _ _ => .str ""), none⟩
      (.objRef 0) (.objRef 1) .undefined (List.replicate 256 0) = .str "" ∧
    AbstractGrantType.generateAccessToken
      ⟨fun _ _ => .ok none, none, none, none⟩
      (.objRef 0) (.objRef 1) .undefined (List.replicate 256 0) =
      .str (bytesToHex (sha256 (List.replicate 256 0))) ∧
    (generateRandomToken (List.replicate 256 0)).length = 64 := by
  have h := c4_generateToken_delegation
    ⟨fun _ _ => .ok none, none, none, none⟩
    (.objRef 0) (.objRef 1) .undefined (List.replicate 256 0)
  have h256 : (List.replicate 256 (0 : Nat)).length = 256 := List.length_replicate 256 0
  refine ⟨(c4_generateToken_delegation
            ⟨fun _ _ => .ok none, some (fun _ _ _ => .str ""), none, none⟩
            (.objRef 0) (.objRef 1) .undefined (List.replicate 256 0)).1 _ rfl,
          (c4_generateToken_delegation
            ⟨fun _ _ => .ok none, none, some (fun _ _ _ => .str ""), none⟩
            (.objRef 0) (.objRef 1) .undefined (List.replicate 256 0)).2.1 _ rfl,
          (h.2.2.1 rfl h256).1, (h.2.2.1 rfl h256).2.1⟩

/-! ## C10: OAuthError constructor -/

/-- C10: an `OAuthError` (of any concrete class) constructed without a
message, or with an empty one, gets the standard HTTP reason phrase of its
bound code as message; `code`, `status` and `statusCode` are always set to
one same numeric value; constructing from an existing error reuses its
(non-empty) message and keeps the original under `inner`; in particular a
bare `InvalidClientError` is `invalid_client`, 400, "Bad Request". -/
theorem c10_oauthError_spec :
    (∀ (cls : ErrClass) (m : MsgOrErr) (props : Option ErrProps) (c : Nat),
      (m = .undefined ∨ m = .msg "") →
      (OAuthError.constructWith cls m props).errCode = some c →
      (OAuthError.constructWith cls m props).errMessage = statusCodes c) ∧
    (∀ cls m props, ∃ c,
      (OAuthError.constructWith cls m props).errCode = some c ∧
      (OAuthError.constructWith cls m props).errStatus = some c ∧
      (OAuthError.constructWith cls m props).errStatusCode = some c) ∧
    (∀ cls props (e : ErrVal),
      (OAuthError.constructWith cls (.err e) props).errInner = some e ∧
      (∀ s, e.errMessage = some s → s ≠ "" →
        (OAuthError.constructWith cls (.err e) props).errMessage = some s)) ∧
    InvalidClientError.construct .undefined none =
      .oauth .invalidClient "invalid_client" (some "Bad Request") 400 400 400 none := by
  refine ⟨?_, ?_, ?_, rfl⟩
  · intro cls m props c hm hc
    have hempty : "".isEmpty = true := by decide
    rcases hm with hm | hm <;> subst hm <;>
      simp [OAuthError.constructWith, ErrVal.errCode] at hc <;>
      simp [OAuthError.constructWith, ErrVal.errMessage, hc, hempty]
  · intro cls m props
    exact ⟨(props.getD ⟨none, none⟩).code.getD 500, rfl, rfl, rfl⟩
  · intro cls props e
    constructor
    · rfl
    · intro s hs hne
      have hie : s.isEmpty = false := by
        cases hb : s.isEmpty
        · rfl
        · exact absurd ((String.isEmpty_iff s).mp hb) hne
      simp only [OAuthError.constructWith, hs]
      simp [ErrVal.errMessage, hie]

/-- Witness for C10: a bare `ServerError` takes the 503 reason phrase, and
an `InvalidClientError` wrapping a messaged error keeps message and inner. -/
theorem c10_oauthError_spec_witness :
    (OAuthError.constructWith .serverErr .undefined
      (some (subclassProps 503 "server_error" none))).errMessage =
        some "Service Unavailable" ∧
    (OAuthError.constructWith .invalidClient
      (.err (invalidClientError "Invalid client: client is invalid"))
      (some (subclassProps 400 "invalid_client" (some ⟨some 401, none⟩)))).errInner =
        some (invalidClientError "Invalid client: client is invalid") ∧
    (OAuthError.constructWith .invalidClient
      (.err (invalidClientError "Invalid client: client is invalid"))
      (some (subclassProps 400 "invalid_client" (some ⟨some 401, none⟩)))).errMessage =
        some "Invalid client: client is invalid" := by
  refine ⟨(c10_oauthError_spec.1 .serverErr .undefined
            (some (subclassProps 503 "server_error" none)) 503 (Or.inl rfl) rfl).trans rfl,
          (c10_oauthError_spec.2.2.1 _ _ _).1,
          (c10_oauthError_spec.2.2.1 _ _ _).2 _ rfl (by decide)⟩

/-! ## C8: TokenModel invariants -/

/-- C8: constructing a `TokenModel` fails with `InvalidArgument` whenever
the access token, the client or the user is missing or falsy, and whenever
`accessTokenExpiresAt` or `refreshTokenExpiresAt` is truthy-present but not
a `Date` instance; every successfully constructed `TokenModel` therefore
carries a truthy access token, client and user (taken verbatim from the
data). -/
theorem c8_tokenModel_spec :
    ∀ (data : List (String × JSVal)) (allow : Bool) (now : Int),
      ((dataGet data "accessToken").truthy = false →
        TokenModel.construct data allow now =
          .error (invalidArgumentError "Missing parameter: `accessToken`")) ∧
      ((dataGet data "accessToken").truthy = true →
       (dataGet data "client").truthy = false →
        TokenModel.construct data allow now =
          .error (invalidArgumentError "Missing parameter: `client`")) ∧
      ((dataGet data "accessToken").truthy = true →
       (dataGet data "client").truthy = true →
       (dataGet data "user").truthy = false →
        TokenModel.construct data allow now =
          .error (invalidArgumentError "Missing parameter: `user`")) ∧
      ((dataGet data "accessToken").truthy = true →
       (dataGet data "client").truthy = true →
       (dataGet data "user").truthy = true →
       ((dataGet data "accessTokenExpiresAt").truthy &&
         !(dataGet data "accessTokenExpiresAt").isDate) = true →
        TokenModel.construct data allow now =
          .error (invalidArgumentError "Invalid parameter: `accessTokenExpiresAt`")) ∧
      ((dataGet data "accessToken").truthy = true →
       (dataGet data "client").truthy = true →
       (dataGet data "user").truthy = true →
       ((dataGet data "accessTokenExpiresAt").truthy &&
         !(dataGet data "accessTokenExpiresAt").isDate) = false →
       ((dataGet data "refreshTokenExpiresAt").truthy &&
         !(dataGet data "refreshTokenExpiresAt").isDate) = true →
        TokenModel.construct data allow now =
          .error (invalidArgumentError "Invalid parameter: `refreshTokenExpiresAt`")) ∧
      (∀ rec, TokenModel.construct data allow now = .ok rec →
        rec.accessToken.truthy = true ∧ rec.client.truthy = true ∧
        rec.user.truthy = true ∧
        rec.accessToken = dataGet data "accessToken" ∧
        rec.client = dataGet data "client" ∧
        rec.user = dataGet data "user") := by
  intro data allow now
  refine ⟨fun h1 => ?_, fun h1 h2 => ?_, fun h1 h2 h3 => ?_,
          fun h1 h2 h3 h4 => ?_, fun h1 h2 h3 h4 h5 => ?_, fun rec hr => ?_⟩
  · simp [TokenModel.construct, h1]
  · simp [TokenModel.construct, h1, h2]
  · simp [TokenModel.construct, h1, h2, h3]
  · simp [TokenModel.construct, h1, h2, h3, h4]
  · simp [TokenModel.construct, h1, h2, h3, h4, h5]
  · by_cases h1 : (dataGet data "accessToken").truthy
    case neg => simp [TokenModel.construct, h1] at hr
    by_cases h2 : (dataGet data "client").truthy
    case neg => simp [TokenModel.construct, h1, h2] at hr
    by_cases h3 : (dataGet data "user").truthy
    case neg => simp [TokenModel.construct, h1, h2, h3] at hr
    by_cases h4 : ((dataGet data "accessTokenExpiresAt").truthy &&
        !(dataGet data "accessTokenExpiresAt").isDate) = true
    case pos => simp [TokenModel.construct, h1, h2, h3, h4] at hr
    by_cases h5 : ((dataGet data "refreshTokenExpiresAt").truthy &&
        !(dataGet data "refreshTokenExpiresAt").isDate) = true
    case pos =>
      simp [TokenModel.construct, h1, h2, h3,
            Bool.eq_false_iff.mpr h4, h5] at hr
    have hr2 := hr.symm
    simp [TokenModel.construct, h1, h2, h3,
          Bool.eq_false_iff.mpr h4, Bool.eq_false_iff.mpr h5] at hr2
    subst hr2
    exact ⟨h1, h2, h3, rfl, rfl, rfl⟩

/-- Witness for C8: a falsy access token is rejected; a numeric
`accessTokenExpiresAt` is rejected; a complete record constructs and keeps
its truthy fields. -/
theorem c8_tokenModel_spec_witness :
    TokenModel.construct [("client", .objRef 1), ("user", .objRef 2)] false 0 =
      .error (invalidArgumentError "Missing parameter: `accessToken`") ∧
    TokenModel.construct
      [("accessToken", .str "t"), ("client", .objRef 1), ("user", .objRef 2),
       ("accessTokenExpiresAt", .num 5)] false 0 =
      .error (invalidArgumentError "Invalid parameter: `accessTokenExpiresAt`") ∧
    (∀ rec, TokenModel.construct
      [("accessToken", .str "t"), ("client", .objRef 1), ("user", .objRef 2)] false 0 =
        .ok rec → rec.accessToken.truthy = true ∧ rec.client.truthy = true ∧
          rec.user.truthy = true ∧ rec.accessToken = .str "t" ∧
          rec.client = .objRef 1 ∧ rec.user = .objRef 2) := by
  refine ⟨(c8_tokenModel_spec _ false 0).1 rfl,
          (c8_tokenModel_spec _ false 0).2.2.2.1 rfl rfl rfl rfl,
          fun rec hr => (c8_tokenModel_spec _ false 0).2.2.2.2.2 rec hr⟩

/-! ## C9: grant-type registry merging -/

/-- C9: a constructed token handler's registry is the four built-ins merged
with `extendedGrantTypes` via `Object.assign({}, grantTypes, ext)`; lookup
in the merged registry prefers the extension entry on a name collision; and
`handleGrantType` dispatches through exactly that registry lookup, so a
colliding name dispatches to the extension class. -/
theorem c9_grantTypes_merge :
    ∀ (options : TokenHandlerOptions) (cfg : TokenHandlerCfg),
      TokenHandler.create options = .ok cfg →
      cfg.grantTypes = objAssign builtinGrantTypes options.extendedGrantTypes ∧
      ((options.extendedGrantTypes.map Prod.fst).Nodup → ∀ k,
        getOwn cfg.grantTypes k =
          (getOwn options.extendedGrantTypes k).or (getOwn builtinGrantTypes k)) ∧
      (∀ request client d, TokenHandler.handleGrantType cfg request client = .ok d →
        getOwn cfg.grantTypes (request.body.grant_type.getD "") = some d.ctor) := by
  intro options cfg hc
  have hgrants : cfg.grantTypes = objAssign builtinGrantTypes options.extendedGrantTypes := by
    by_cases h1 : jsIntTruthy options.accessTokenLifetime
    case neg => simp [TokenHandler.create, h1] at hc
    cases hm : options.model with
    | none => simp [TokenHandler.create, h1, hm] at hc
    | some model =>
      by_cases h2 : jsIntTruthy options.refreshTokenLifetime
      case neg => simp [TokenHandler.create, h1, hm, h2] at hc
      by_cases h3 : options.modelHasGetClient
      case neg => simp [TokenHandler.create, h1, hm, h2, h3] at hc
      have hc2 := hc.symm
      simp [TokenHandler.create, h1, hm, h2, h3] at hc2
      subst hc2
      rfl
  refine ⟨hgrants, fun hnd k => ?_, fun request client d hd => ?_⟩
  · rw [hgrants]
    exact getOwn_objAssign options.extendedGrantTypes builtinGrantTypes k hnd
  · by_cases hgt : strTruthy request.body.grant_type
    case neg => simp [TokenHandler.handleGrantType, hgt] at hd
    by_cases hfmt : (!isNchar (request.body.grant_type.getD "") &&
        !uriTest (request.body.grant_type.getD "")) = true
    case pos => simp [TokenHandler.handleGrantType, hgt, hfmt] at hd
    cases hg : getOwn cfg.grantTypes (request.body.grant_type.getD "") with
    | none =>
      simp [TokenHandler.handleGrantType, hgt,
            Bool.eq_false_iff.mpr hfmt, hg] at hd
    | some ctor =>
      cases hcg : client.grants with
      | missing =>
        simp [TokenHandler.handleGrantType, hgt,
              Bool.eq_false_iff.mpr hfmt, hg, hcg] at hd
      | nonArray =>
        simp [TokenHandler.handleGrantType, hgt,
              Bool.eq_false_iff.mpr hfmt, hg, hcg] at hd
      | arr gs =>
        by_cases ha : (request.body.grant_type.getD "") ∈ gs
        · have hd2 := hd.symm
          simp [TokenHandler.handleGrantType, hgt,
                Bool.eq_false_iff.mpr hfmt, hg, hcg, ha] at hd2
          subst hd2
          rfl
        · simp [TokenHandler.handleGrantType, hgt,
                Bool.eq_false_iff.mpr hfmt, hg, hcg, ha] at hd

/-- Witness for C9: an extension map overriding `password` and adding a
URN-named grant; the built-in survives for non-colliding names, the
extension wins the collision, and dispatch for the colliding name picks the
extension constructor. -/
theorem c9_grantTypes_merge_witness :
    getOwn (objAssign builtinGrantTypes
      [("password", GrantCtor.extensionCtor 7), ("urn:custom:grant", GrantCtor.extensionCtor 8)])
      "password" = some (GrantCtor.extensionCtor 7) ∧
    getOwn (objAssign builtinGrantTypes
      [("password", GrantCtor.extensionCtor 7), ("urn:custom:grant", GrantCtor.extensionCtor 8)])
      "client_credentials" = some GrantCtor.clientCredentials ∧
    getOwn (objAssign builtinGrantTypes
      [("password", GrantCtor.extensionCtor 7), ("urn:custom:grant", GrantCtor.extensionCtor 8)])
      "urn:custom:grant" = some (GrantCtor.extensionCtor 8) := by
  have hcreate : TokenHandler.create
      ⟨some 3600, some 1209600, some ⟨fun _ _ => .ok none, none, none, none⟩, true,
       [("password", GrantCtor.extensionCtor 7), ("urn:custom:grant", GrantCtor.extensionCtor 8)],
       [], none, false⟩ =
      .ok ⟨3600, 1209600,
           objAssign builtinGrantTypes
             [("password", GrantCtor.extensionCtor 7), ("urn:custom:grant", GrantCtor.extensionCtor 8)],
           ⟨fun _ _ => .ok none, none, none, none⟩, [], true, false⟩ := rfl
  have h := c9_grantTypes_merge _ _ hcreate
  have hnd : ((([("password", GrantCtor.extensionCtor 7),
      ("urn:custom:grant", GrantCtor.extensionCtor 8)] : List (String × GrantCtor))).map
        Prod.fst).Nodup := by decide
  refine ⟨(h.2.1 hnd "password").trans rfl,
          (h.2.1 hnd "client_credentials").trans rfl,
          (h.2.1 hnd "urn:custom:grant").trans rfl⟩

/-! ## C1: getClientCredentials priority order -/

/-- C1: `getClientCredentials` resolves, in priority order: a parsed HTTP
Basic header's name/pass pair; then body `client_id`+`client_secret`; then —
if the request is a PKCE request (grant type `authorization_code` with a
non-empty `code_verifier`) or client authentication is not required for the
grant type — a bare body `client_id` alone; and otherwise raises
`InvalidClient` ("Invalid client: cannot retrieve client credentials"). -/
theorem c1_getClientCredentials_priority :
    ∀ (self : TokenHandlerCfg) (r : Req),
      (∀ c, r.basic = some c →
        TokenHandler.getClientCredentials self r = .ok ⟨c.name, some c.pass⟩) ∧
      (r.basic = none →
       strTruthy r.body.client_id = true → strTruthy r.body.client_secret = true →
        TokenHandler.getClientCredentials self r =
          .ok ⟨r.body.client_id.getD "", r.body.client_secret⟩) ∧
      (r.basic = none →
       ¬(strTruthy r.body.client_id = true ∧ strTruthy r.body.client_secret = true) →
       (isPKCERequest r.body.grant_type r.body.code_verifier = true ∨
        TokenHandler.isClientAuthenticationRequired self r.body.grant_type = false) →
       strTruthy r.body.client_id = true →
        TokenHandler.getClientCredentials self r = .ok ⟨r.body.client_id.getD "", none⟩) ∧
      (r.basic = none →
       ¬(strTruthy r.body.client_id = true ∧ strTruthy r.body.client_secret = true) →
       ¬((isPKCERequest r.body.grant_type r.body.code_verifier = true ∨
          TokenHandler.isClientAuthenticationRequired self r.body.grant_type = false) ∧
         strTruthy r.body.client_id = true) →
        TokenHandler.getClientCredentials self r =
          .error (invalidClientError "Invalid client: cannot retrieve client credentials")) := by
  intro self r
  refine ⟨fun c hc => ?_, fun hb h1 h2 => ?_, fun hb h12 hor hid => ?_,
          fun hb h12 hno => ?_⟩
  · simp [TokenHandler.getClientCredentials, hc]
  · simp [TokenHandler.getClientCredentials, hb, h1, h2]
  · have hsec : strTruthy r.body.client_secret = false :=
      Bool.eq_false_iff.mpr (fun h => h12 ⟨hid, h⟩)
    rcases hor with hp | ha
    · simp [TokenHandler.getClientCredentials, hb, hid, hsec, hp]
    · by_cases hp : isPKCERequest r.body.grant_type r.body.code_verifier = true
      · simp [TokenHandler.getClientCredentials, hb, hid, hsec, hp]
      · simp [TokenHandler.getClientCredentials, hb, hid, hsec,
              Bool.eq_false_iff.mpr hp, ha]
  · by_cases hid : strTruthy r.body.client_id = true
    · have hsec : strTruthy r.body.client_secret = false :=
        Bool.eq_false_iff.mpr (fun h => h12 ⟨hid, h⟩)
      have hp : isPKCERequest r.body.grant_type r.body.code_verifier = false := by
        cases h : isPKCERequest r.body.grant_type r.body.code_verifier
        · rfl
        · exact absurd ⟨Or.inl h, hid⟩ hno
      have ha : TokenHandler.isClientAuthenticationRequired self r.body.grant_type = true := by
        cases h : TokenHandler.isClientAuthenticationRequired self r.body.grant_type
        · exact absurd ⟨Or.inr h, hid⟩ hno
        · rfl
      simp [TokenHandler.getClientCredentials, hb, hid, hsec, hp, ha]
    · have hid2 : strTruthy r.body.client_id = false := Bool.eq_false_iff.mpr hid
      simp [TokenHandler.getClientCredentials, hb, hid2]

/-- Witness for C1 at four concrete requests: Basic header wins; body pair
resolves; PKCE allows a bare `client_id`; nothing resolvable raises
`InvalidClient`. -/
theorem c1_getClientCredentials_priority_witness :
    TokenHandler.getClientCredentials
      ⟨3600, 1209600, builtinGrantTypes, ⟨fun _ _ => .ok none, none, none, none⟩, [], true, false⟩
      ⟨[("authorization", "Basic Zm9vOmJhcg==")], some ⟨"foo", "bar"⟩,
       ⟨some "password", none, some "other", some "secret"⟩⟩ = .ok ⟨"foo", some "bar"⟩ ∧
    TokenHandler.getClientCredentials
      ⟨3600, 1209600, builtinGrantTypes, ⟨fun _ _ => .ok none, none, none, none⟩, [], true, false⟩
      ⟨[], none, ⟨some "password", none, some "cid", some "secret"⟩⟩ =
        .ok ⟨"cid", some "secret"⟩ ∧
    TokenHandler.getClientCredentials
      ⟨3600, 1209600, builtinGrantTypes, ⟨fun _ _ => .ok none, none, none, none⟩, [], true, false⟩
      ⟨[], none, ⟨some "authorization_code", some "verifier123", some "cid", none⟩⟩ =
        .ok ⟨"cid", none⟩ ∧
    TokenHandler.getClientCredentials
      ⟨3600, 1209600, builtinGrantTypes, ⟨fun _ _ => .ok none, none, none, none⟩, [], true, false⟩
      ⟨[], none, ⟨some "password", none, some "cid", none⟩⟩ =
        .error (invalidClientError "Invalid client: cannot retrieve client credentials") := by
  refine ⟨(c1_getClientCredentials_priority _ _).1 ⟨"foo", "bar"⟩ rfl,
          (c1_getClientCredentials_priority _ _).2.1 rfl rfl rfl,
          (c1_getClientCredentials_priority _ _).2.2.1 rfl (by decide) (Or.inl rfl) rfl,
          (c1_getClientCredentials_priority _ _).2.2.2 rfl (by decide) (by decide)⟩

/-! ## C3: grant_type validation order -/

/-- C3: `handleGrantType` validates `grant_type` in order: absent →
`InvalidRequest`; failing both the `NCHAR` charset check and the URI syntax
check → `InvalidRequest`; well-formed but not a key of the configured
grant-type map → `UnsupportedGrantType`; configured but not contained in
the client's `grants` array → `UnauthorizedClient` — each failure
pre-empting the later checks. -/
theorem c3_handleGrantType_validation :
    ∀ (self : TokenHandlerCfg) (r : Req) (client : Client),
      (strTruthy r.body.grant_type = false →
        TokenHandler.handleGrantType self r client =
          .error (invalidRequestError "Missing parameter: `grant_type`")) ∧
      (strTruthy r.body.grant_type = true →
       isNchar (r.body.grant_type.getD "") = false →
       uriTest (r.body.grant_type.getD "") = false →
        TokenHandler.handleGrantType self r client =
          .error (invalidRequestError "Invalid parameter: `grant_type`")) ∧
      (strTruthy r.body.grant_type = true →
       (isNchar (r.body.grant_type.getD "") = true ∨
        uriTest (r.body.grant_type.getD "") = true) →
       getOwn self.grantTypes (r.body.grant_type.getD "") = none →
        TokenHandler.handleGrantType self r client =
          .error (unsupportedGrantTypeError "Unsupported grant type: `grant_type` is invalid")) ∧
      (∀ ctor, strTruthy r.body.grant_type = true →
       (isNchar (r.body.grant_type.getD "") = true ∨
        uriTest (r.body.grant_type.getD "") = true) →
       getOwn self.grantTypes (r.body.grant_type.getD "") = some ctor →
       (match client.grants with
        | GrantsVal.arr gs => gs.contains (r.body.grant_type.getD "")
        | _ => false) = false →
        TokenHandler.handleGrantType self r client =
          .error (unauthorizedClientError "Unauthorized client: `grant_type` is invalid")) := by
  intro self r client
  have hwf : ∀ h : (isNchar (r.body.grant_type.getD "") = true ∨
      uriTest (r.body.grant_type.getD "") = true),
      (!isNchar (r.body.grant_type.getD "") && !uriTest (r.body.grant_type.getD "")) = false := by
    intro h
    rcases h with h | h <;> simp [h]
  refine ⟨fun h0 => ?_, fun h0 h1 h2 => ?_, fun h0 h12 hg => ?_,
          fun ctor h0 h12 hg ha => ?_⟩
  · simp [TokenHandler.handleGrantType, h0]
  · simp [TokenHandler.handleGrantType, h0, h1, h2]
  · simp [TokenHandler.handleGrantType, h0, hwf h12, hg]
  · simp [TokenHandler.handleGrantType, h0, hwf h12, hg]
    simpa using ha

/-- Witness for C3 at four concrete requests against a client authorized
only for `password`: missing, malformed, unconfigured, and unauthorized
grant types raise the four errors in turn. -/
theorem c3_handleGrantType_validation_witness :
    TokenHandler.handleGrantType
      ⟨3600, 1209600, builtinGrantTypes, ⟨fun _ _ => .ok none, none, none, none⟩, [], true, false⟩
      ⟨[], none, ⟨none, none, some "cid", some "sec"⟩⟩ ⟨.arr ["password"], none, none⟩ =
      .error (invalidRequestError "Missing parameter: `grant_type`") ∧
    TokenHandler.handleGrantType
      ⟨3600, 1209600, builtinGrantTypes, ⟨fun _ _ => .ok none, none, none, none⟩, [], true, false⟩
      ⟨[], none, ⟨some "bad grant", none, some "cid", some "sec"⟩⟩ ⟨.arr ["password"], none, none⟩ =
      .error (invalidRequestError "Invalid parameter: `grant_type`") ∧
    TokenHandler.handleGrantType
      ⟨3600, 1209600, builtinGrantTypes, ⟨fun _ _ => .ok none, none, none, none⟩, [], true, false⟩
      ⟨[], none, ⟨some "implicit", none, some "cid", some "sec"⟩⟩ ⟨.arr ["password"], none, none⟩ =
      .error (unsupportedGrantTypeError "Unsupported grant type: `grant_type` is invalid") ∧
    TokenHandler.handleGrantType
      ⟨3600, 1209600, builtinGrantTypes, ⟨fun _ _ => .ok none, none, none, none⟩, [], true, false⟩
      ⟨[], none, ⟨some "client_credentials", none, some "cid", some "sec"⟩⟩
      ⟨.arr ["password"], none, none⟩ =
      .error (unauthorizedClientError "Unauthorized client: `grant_type` is invalid") := by
  refine ⟨(c3_handleGrantType_validation _ _ _).1 rfl,
          (c3_handleGrantType_validation _ _ _).2.1 rfl (by decide) (by decide),
          (c3_handleGrantType_validation _ _ _).2.2.1 rfl (Or.inl (by decide)) rfl,
          (c3_handleGrantType_validation _ _ _).2.2.2 .clientCredentials rfl
            (Or.inl (by decide)) rfl (by decide)⟩

/-! ## C2: getClient on a falsy model result -/

theorem isInvalidClient_invalidClientError (m : String) :
    (invalidClientError m).isInvalidClient = true := rfl

/-- C2: when the resolved credentials pass the parameter and format checks
and the model's `getClient` returns a falsy value, `getClient` raises
`InvalidClient` with message "Invalid client: client is invalid"; with an
`Authorization` request header the error is re-raised as an `InvalidClient`
with code 401 (keeping the message, the original error under `inner`) and
the response gains `WWW-Authenticate: Basic realm="Service"`; without the
header the error keeps the default code 400 and the response is untouched. -/
theorem c2_getClient_invalid_client :
    ∀ (self : TokenHandlerCfg) (r : Req) (response : Resp) (creds : Credentials),
      TokenHandler.getClientCredentials self r = .ok creds →
      creds.clientId.isEmpty = false →
      (TokenHandler.isClientAuthenticationRequired self r.body.grant_type &&
        !strTruthy creds.clientSecret &&
        !isPKCERequest r.body.grant_type r.body.code_verifier) = false →
      isVschar creds.clientId = true →
      (strTruthy creds.clientSecret && !isVschar (creds.clientSecret.getD "")) = false →
      self.model.getClient creds.clientId creds.clientSecret = .ok none →
      (strTruthy (r.get "authorization") = false →
        TokenHandler.getClient self r response =
          (.error (invalidClientError "Invalid client: client is invalid"), response) ∧
        (invalidClientError "Invalid client: client is invalid").errCode = some 400) ∧
      (strTruthy (r.get "authorization") = true →
        TokenHandler.getClient self r response =
          (.error (InvalidClientError.construct
              (.err (invalidClientError "Invalid client: client is invalid"))
              (some ⟨some 401, none⟩)),
           response.set "WWW-Authenticate" "Basic realm=\"Service\"") ∧
        (InvalidClientError.construct
            (.err (invalidClientError "Invalid client: client is invalid"))
            (some ⟨some 401, none⟩)).errCode = some 401 ∧
        (InvalidClientError.construct
            (.err (invalidClientError "Invalid client: client is invalid"))
            (some ⟨some 401, none⟩)).errMessage =
          some "Invalid client: client is invalid" ∧
        (InvalidClientError.construct
            (.err (invalidClientError "Invalid client: client is invalid"))
            (some ⟨some 401, none⟩)).errInner =
          some (invalidClientError "Invalid client: client is invalid") ∧
        (response.set "WWW-Authenticate" "Basic realm=\"Service\"").get "WWW-Authenticate" =
          some "Basic realm=\"Service\"") := by
  intro self r response creds hcred hid hsecreq hvs1 hvs2 hmodel
  constructor
  · intro hauth
    refine ⟨?_, rfl⟩
    simp [TokenHandler.getClient, hcred, hid, hsecreq, hvs1, hvs2, hmodel,
          ErrVal.isInvalidClient, hauth]
  · intro hauth
    refine ⟨?_, rfl, rfl, rfl, ?_⟩
    · simp [TokenHandler.getClient, hcred, hid, hsecreq, hvs1, hvs2, hmodel,
            isInvalidClient_invalidClientError, hauth]
    · show getOwn (setKey response.headers (asciiLower "WWW-Authenticate") _)
        (asciiLower "WWW-Authenticate") = _
      rw [getOwn_setKey]
      simp

/-- Witness for C2 at two concrete requests whose model knows no client:
without an `Authorization` header the 400-coded error and untouched
response; with one, the 401-coded re-raise and the `WWW-Authenticate`
header. -/
theorem c2_getClient_invalid_client_witness :
    (TokenHandler.getClient
      ⟨3600, 1209600, builtinGrantTypes, ⟨fun _ _ => .ok none, none, none, none⟩, [], true, false⟩
      ⟨[], none, ⟨some "password", none, some "cid", some "sec"⟩⟩
      ⟨[], [], .num 200⟩ =
      (.error (invalidClientError "Invalid client: client is invalid"), ⟨[], [], .num 200⟩)) ∧
    (TokenHandler.getClient
      ⟨3600, 1209600, builtinGrantTypes, ⟨fun _ _ => .ok none, none, none, none⟩, [], true, false⟩
      ⟨[("authorization", "Basic Y2lkOnNlYw==")], some ⟨"cid", "sec"⟩,
       ⟨some "password", none, none, none⟩⟩
      ⟨[], [], .num 200⟩ =
      (.error (InvalidClientError.construct
          (.err (invalidClientError "Invalid client: client is invalid"))
          (some ⟨some 401, none⟩)),
       Resp.set ⟨[], [], .num 200⟩ "WWW-Authenticate" "Basic realm=\"Service\"")) ∧
    (InvalidClientError.construct
        (.err (invalidClientError "Invalid client: client is invalid"))
        (some ⟨some 401, none⟩)).errCode = some 401 := by
  refine ⟨((c2_getClient_invalid_client
            ⟨3600, 1209600, builtinGrantTypes, ⟨fun _ _ => .ok none, none, none, none⟩, [], true, false⟩
            ⟨[], none, ⟨some "password", none, some "cid", some "sec"⟩⟩
            ⟨[], [], .num 200⟩ ⟨"cid", some "sec"⟩
            rfl rfl (by decide) (by decide) (by decide) rfl).1 rfl).1,
          ((c2_getClient_invalid_client
            ⟨3600, 1209600, builtinGrantTypes, ⟨fun _ _ => .ok none, none, none, none⟩, [], true, false⟩
            ⟨[("authorization", "Basic Y2lkOnNlYw==")], some ⟨"cid", "sec"⟩,
             ⟨some "password", none, none, none⟩⟩
            ⟨[], [], .num 200⟩ ⟨"cid", some "sec"⟩
            rfl rfl (by decide) (by decide) (by decide) rfl).2 rfl).1,
          ((c2_getClient_invalid_client
            ⟨3600, 1209600, builtinGrantTypes, ⟨fun _ _ => .ok none, none, none, none⟩, [], true, false⟩
            ⟨[("authorization", "Basic Y2lkOnNlYw==")], some ⟨"cid", "sec"⟩,
             ⟨some "password", none, none, none⟩⟩
            ⟨[], [], .num 200⟩ ⟨"cid", some "sec"⟩
            rfl rfl (by decide) (by decide) (by decide) rfl).2 rfl).2.1⟩

/-! ## C7: response shaping -/

theorem getOwn_foldl_setKey (attrs : List (String × JSVal)) (k : String)
    (h : k ∉ attrs.map Prod.fst) : ∀ body : RespBody,
    getOwn (attrs.foldl (fun acc p => setKey acc p.1 p.2) body) k = getOwn body k := by
  induction attrs with
  | nil => intro body; rfl
  | cons p rest ih =>
    intro body
    simp only [List.map_cons, List.mem_cons, not_or] at h
    show getOwn (rest.foldl _ (setKey body p.1 p.2)) k = _
    rw [ih h.2, getOwn_setKey]
    simp [h.1]

/-- The `scope` key of `valueOf()`: present (with the raw scope value) iff
the scope is truthy, provided the custom attributes do not smuggle in a
`scope` key of their own. -/
theorem getOwn_scope_valueOf (t : BearerTokenType)
    (hattr : t.customAttributes = none ∨
      ∃ attrs, t.customAttributes = some attrs ∧ "scope" ∉ attrs.map Prod.fst) :
    getOwn t.valueOf "scope" = if t.scope.truthy then some t.scope else none := by
  have hne1 : ("scope" : String) ≠ "expires_in" := by decide
  have hne2 : ("scope" : String) ≠ "refresh_token" := by decide
  have hfold : ∀ body : RespBody, getOwn (match t.customAttributes with
      | some attrs => attrs.foldl (fun acc p => setKey acc p.1 p.2) body
      | none => body) "scope" = getOwn body "scope" := by
    intro body
    rcases hattr with hnone | ⟨attrs, hsome, hmem⟩
    · rw [hnone]
    · rw [hsome]
      exact getOwn_foldl_setKey attrs "scope" hmem body
  simp only [BearerTokenType.valueOf]
  rw [hfold]
  by_cases hs : t.scope.truthy
  · simp [hs, getOwn_setKey]
  · have hbase : getOwn ([("access_token", t.accessToken),
        ("token_type", JSVal.str "Bearer")] : RespBody) "scope" = none := rfl
    simp only [hs, if_false, Bool.false_eq_true]
    split <;> split <;>
      simp [getOwn_setKey, hne1, hne2, hbase]

/-- `customAttributes` of a constructed `TokenModel` never contains the
reserved `scope` key. -/
theorem tokenModel_customAttributes_no_scope :
    ∀ (data : List (String × JSVal)) (allow : Bool) (now : Int) rec,
      TokenModel.construct data allow now = .ok rec →
      rec.customAttributes = none ∨
        ∃ attrs, rec.customAttributes = some attrs ∧ "scope" ∉ attrs.map Prod.fst := by
  intro data allow now rec hr
  by_cases h1 : (dataGet data "accessToken").truthy
  case neg => simp [TokenModel.construct, h1] at hr
  by_cases h2 : (dataGet data "client").truthy
  case neg => simp [TokenModel.construct, h1, h2] at hr
  by_cases h3 : (dataGet data "user").truthy
  case neg => simp [TokenModel.construct, h1, h2, h3] at hr
  by_cases h4 : ((dataGet data "accessTokenExpiresAt").truthy &&
      !(dataGet data "accessTokenExpiresAt").isDate) = true
  case pos => simp [TokenModel.construct, h1, h2, h3, h4] at hr
  by_cases h5 : ((dataGet data "refreshTokenExpiresAt").truthy &&
      !(dataGet data "refreshTokenExpiresAt").isDate) = true
  case pos =>
    simp [TokenModel.construct, h1, h2, h3, Bool.eq_false_iff.mpr h4, h5] at hr
  have hr2 := hr.symm
  simp [TokenModel.construct, h1, h2, h3,
        Bool.eq_false_iff.mpr h4, Bool.eq_false_iff.mpr h5] at hr2
  subst hr2
  cases allow with
  | false => exact Or.inl rfl
  | true =>
    refine Or.inr ⟨_, rfl, fun hmem => ?_⟩
    rcases List.mem_map.mp hmem with ⟨p, hp, hps⟩
    have hpf := (List.mem_filter.mp hp).2
    rw [hps] at hpf
    simp [modelAttributes] at hpf

/-- C7: on success the response body is the bearer token value with a
present scope rebuilt as the single space-joined string (never an array),
and the `Cache-Control: no-store` and `Pragma: no-cache` headers are set;
on error the body is `{error: error.name, error_description:
error.message}` and the status is the error's bound code. The
custom-attribute hypothesis holds for every token that reaches the success
path (see `tokenModel_customAttributes_no_scope`). -/
theorem c7_updateResponse_spec :
    ∀ (response : Resp) (t : BearerTokenType),
      (t.customAttributes = none ∨
        ∃ attrs, t.customAttributes = some attrs ∧ "scope" ∉ attrs.map Prod.fst) →
      ((∀ xs, t.scope = .strArr xs →
        TokenHandler.updateSuccessResponse response t =
          .ok (Resp.set (Resp.set
            ⟨response.headers,
             setKey t.valueOf "scope" (.str (String.intercalate " " xs)),
             response.status⟩ "Cache-Control" "no-store") "Pragma" "no-cache") ∧
        (∀ r', TokenHandler.updateSuccessResponse response t = .ok r' →
          getOwn r'.body "scope" = some (.str (String.intercalate " " xs)) ∧
          r'.get "Cache-Control" = some "no-store" ∧
          r'.get "Pragma" = some "no-cache" ∧
          r'.status = response.status)) ∧
      (t.scope = .undefined →
        ∀ r', TokenHandler.updateSuccessResponse response t = .ok r' →
          getOwn r'.body "scope" = none ∧
          r'.get "Cache-Control" = some "no-store" ∧
          r'.get "Pragma" = some "no-cache") ∧
      (∀ r', TokenHandler.updateSuccessResponse response t = .ok r' →
        ∀ xs, getOwn r'.body "scope" ≠ some (.strArr xs))) ∧
      (∀ e, TokenHandler.updateErrorResponse response e =
        ⟨response.headers,
         [("error", .str e.errName), ("error_description", errMessageVal e)],
         errCodeVal e⟩) ∧
      (∀ cls n m c s sc i,
        (TokenHandler.updateErrorResponse response (.oauth cls n m c s sc i)).status =
          .num c) := by
  intro response t hattr
  have hscope := getOwn_scope_valueOf t hattr
  have hCache : asciiLower "Cache-Control" = "cache-control" := rfl
  have hPragma : asciiLower "Pragma" = "pragma" := rfl
  have hheaders : ∀ h : List (String × String),
      getOwn (setKey (setKey h "cache-control" "no-store") "pragma" "no-cache")
        "cache-control" = some "no-store" ∧
      getOwn (setKey (setKey h "cache-control" "no-store") "pragma" "no-cache")
        "pragma" = some "no-cache" := by
    intro h
    constructor
    · rw [getOwn_setKey]
      simp [getOwn_setKey]
    · rw [getOwn_setKey]
      simp
  refine ⟨⟨fun xs hxs => ?_, fun hund r' hr' => ?_, fun r' hr' xs => ?_⟩,
          fun e => rfl, fun cls n m c s sc i => rfl⟩
  · have hval : getOwn t.valueOf "scope" = some (.strArr xs) := by
      rw [hscope, hxs]; rfl
    have heq : TokenHandler.updateSuccessResponse response t =
        .ok (Resp.set (Resp.set
          ⟨response.headers,
           setKey t.valueOf "scope" (.str (String.intercalate " " xs)),
           response.status⟩ "Cache-Control" "no-store") "Pragma" "no-cache") := by
      simp [TokenHandler.updateSuccessResponse, hval, hxs, scopeJoin, JSVal.truthy]
    refine ⟨heq, fun r' hr' => ?_⟩
    rw [heq] at hr'
    have hr'2 : r' = Resp.set (Resp.set
        ⟨response.headers,
         setKey t.valueOf "scope" (.str (String.intercalate " " xs)),
         response.status⟩ "Cache-Control" "no-store") "Pragma" "no-cache" := by
      cases hr'
      rfl
    subst hr'2
    refine ⟨?_, ?_, ?_, rfl⟩
    · show getOwn (setKey t.valueOf "scope" (.str (String.intercalate " " xs))) "scope" = _
      rw [getOwn_setKey]
      simp
    · show getOwn (setKey (setKey response.headers "cache-control" "no-store")
        "pragma" "no-cache") "cache-control" = some "no-store"
      exact (hheaders response.headers).1
    · show getOwn (setKey (setKey response.headers "cache-control" "no-store")
        "pragma" "no-cache") "pragma" = some "no-cache"
      exact (hheaders response.headers).2
  · have hval : getOwn t.valueOf "scope" = none := by
      rw [hscope, hund]; rfl
    have heq : TokenHandler.updateSuccessResponse response t =
        .ok (Resp.set (Resp.set
          ⟨response.headers, t.valueOf, response.status⟩
          "Cache-Control" "no-store") "Pragma" "no-cache") := by
      simp [TokenHandler.updateSuccessResponse, hval]
    rw [heq] at hr'
    have hr'2 : r' = Resp.set (Resp.set
        ⟨response.headers, t.valueOf, response.status⟩
        "Cache-Control" "no-store") "Pragma" "no-cache" := by
      cases hr'
      rfl
    subst hr'2
    exact ⟨hval, (hheaders response.headers).1, (hheaders response.headers).2⟩
  · cases hsc : t.scope with
    | strArr ys =>
      have hval : getOwn t.valueOf "scope" = some (.strArr ys) := by
        rw [hscope, hsc]; rfl
      have heq : TokenHandler.updateSuccessResponse response t =
          .ok (Resp.set (Resp.set
            ⟨response.headers,
             setKey t.valueOf "scope" (.str (String.intercalate " " ys)),
             response.status⟩ "Cache-Control" "no-store") "Pragma" "no-cache") := by
        simp [TokenHandler.updateSuccessResponse, hval, hsc, scopeJoin, JSVal.truthy]
      rw [heq] at hr'
      have hr'2 : r' = Resp.set (Resp.set
          ⟨response.headers,
           setKey t.valueOf "scope" (.str (String.intercalate " " ys)),
           response.status⟩ "Cache-Control" "no-store") "Pragma" "no-cache" := by
        cases hr'
        rfl
      subst hr'2
      show getOwn (setKey t.valueOf "scope" (.str (String.intercalate " " ys))) "scope" ≠ _
      rw [getOwn_setKey]
      simp
    | undefined =>
      have hval : getOwn t.valueOf "scope" = none := by rw [hscope, hsc]; rfl
      have heq : TokenHandler.updateSuccessResponse response t =
          .ok (Resp.set (Resp.set
            ⟨response.headers, t.valueOf, response.status⟩
            "Cache-Control" "no-store") "Pragma" "no-cache") := by
        simp [TokenHandler.updateSuccessResponse, hval]
      rw [heq] at hr'
      have hr'2 : r' = Resp.set (Resp.set
          ⟨response.headers, t.valueOf, response.status⟩
          "Cache-Control" "no-store") "Pragma" "no-cache" := by
        cases hr'
        rfl
      subst hr'2
      simp [Resp.set, hval]
    | nul =>
      have hval : getOwn t.valueOf "scope" = none := by rw [hscope, hsc]; rfl
      have heq : TokenHandler.updateSuccessResponse response t =
          .ok (Resp.set (Resp.set
            ⟨response.headers, t.valueOf, response.status⟩
            "Cache-Control" "no-store") "Pragma" "no-cache") := by
        simp [TokenHandler.updateSuccessResponse, hval]
      rw [heq] at hr'
      have hr'2 : r' = Resp.set (Resp.set
          ⟨response.headers, t.valueOf, response.status⟩
          "Cache-Control" "no-store") "Pragma" "no-cache" := by
        cases hr'
        rfl
      subst hr'2
      simp [Resp.set, hval]
    | jsBool b =>
      cases b with
      | false =>
        have hval : getOwn t.valueOf "scope" = none := by rw [hscope, hsc]; rfl
        have heq : TokenHandler.updateSuccessResponse response t =
            .ok (Resp.set (Resp.set
              ⟨response.headers, t.valueOf, response.status⟩
              "Cache-Control" "no-store") "Pragma" "no-cache") := by
          simp [TokenHandler.updateSuccessResponse, hval]
        rw [heq] at hr'
        have hr'2 : r' = Resp.set (Resp.set
            ⟨response.headers, t.valueOf, response.status⟩
            "Cache-Control" "no-store") "Pragma" "no-cache" := by
          cases hr'
          rfl
        subst hr'2
        simp [Resp.set, hval]
      | true =>
        have hval : getOwn t.valueOf "scope" = some (.jsBool true) := by
          rw [hscope, hsc]; rfl
        simp [TokenHandler.updateSuccessResponse, hval, scopeJoin, JSVal.truthy] at hr'
    | num n =>
      by_cases hn : (JSVal.num n).truthy
      · have hval : getOwn t.valueOf "scope" = some (.num n) := by
          rw [hscope, hsc]; simp [hn]
        simp [TokenHandler.updateSuccessResponse, hval, scopeJoin, hn] at hr'
      · have hval : getOwn t.valueOf "scope" = none := by
          rw [hscope, hsc]; simp [hn]
        have heq : TokenHandler.updateSuccessResponse response t =
            .ok (Resp.set (Resp.set
              ⟨response.headers, t.valueOf, response.status⟩
              "Cache-Control" "no-store") "Pragma" "no-cache") := by
          simp [TokenHandler.updateSuccessResponse, hval]
        rw [heq] at hr'
        have hr'2 : r' = Resp.set (Resp.set
            ⟨response.headers, t.valueOf, response.status⟩
            "Cache-Control" "no-store") "Pragma" "no-cache" := by
          cases hr'
          rfl
        subst hr'2
        simp [Resp.set, hval]
    | str s =>
      by_cases hn : (JSVal.str s).truthy
      · have hval : getOwn t.valueOf "scope" = some (.str s) := by
          rw [hscope, hsc]; simp [hn]
        simp [TokenHandler.updateSuccessResponse, hval, scopeJoin, hn] at hr'
      · have hval : getOwn t.valueOf "scope" = none := by
          rw [hscope, hsc]; simp [hn]
        have heq : TokenHandler.updateSuccessResponse response t =
            .ok (Resp.set (Resp.set
              ⟨response.headers, t.valueOf, response.status⟩
              "Cache-Control" "no-store") "Pragma" "no-cache") := by
          simp [TokenHandler.updateSuccessResponse, hval]
        rw [heq] at hr'
        have hr'2 : r' = Resp.set (Resp.set
            ⟨response.headers, t.valueOf, response.status⟩
            "Cache-Control" "no-store") "Pragma" "no-cache" := by
          cases hr'
          rfl
        subst hr'2
        simp [Resp.set, hval]
    | date ms =>
      have hval : getOwn t.valueOf "scope" = some (.date ms) := by
        rw [hscope, hsc]; rfl
      simp [TokenHandler.updateSuccessResponse, hval, scopeJoin, JSVal.truthy] at hr'
    | objRef i =>
      have hval : getOwn t.valueOf "scope" = some (.objRef i) := by
        rw [hscope, hsc]; rfl
      simp [TokenHandler.updateSuccessResponse, hval, scopeJoin, JSVal.truthy] at hr'

/-- Witness for C7: a concrete bearer token with scope `["read", "write"]`
serializes it as `"read write"` with the two cache headers set, and a
concrete error response takes the taxonomy name, message and code. -/
theorem c7_updateResponse_spec_witness :
    TokenHandler.updateSuccessResponse ⟨[], [], .num 200⟩
      ⟨.str "tok", .num 3600, .str "ref", .strArr ["read", "write"], none⟩ =
      .ok (Resp.set (Resp.set
        ⟨[], setKey (BearerTokenType.valueOf
              ⟨.str "tok", .num 3600, .str "ref", .strArr ["read", "write"], none⟩)
            "scope" (.str (String.intercalate " " ["read", "write"])),
         JSVal.num 200⟩ "Cache-Control" "no-store") "Pragma" "no-cache") ∧
    TokenHandler.updateErrorResponse ⟨[], [], .num 200⟩
      (invalidClientError "Invalid client: client is invalid") =
      ⟨[], [("error", .str "invalid_client"),
           ("error_description", .str "Invalid client: client is invalid")],
       .num 400⟩ := by
  refine ⟨((c7_updateResponse_spec ⟨[], [], .num 200⟩
      ⟨.str "tok", .num 3600, .str "ref", .strArr ["read", "write"], none⟩
      (Or.inl rfl)).1.1 ["read", "write"] rfl).1,
      ((c7_updateResponse_spec ⟨[], [], .num 200⟩
      ⟨.str "tok", .num 3600, .str "ref", .strArr ["read", "write"], none⟩
      (Or.inl rfl)).2.1 (invalidClientError "Invalid client: client is invalid")).trans rfl⟩

end OAuth2S2P
